import Mathlib

/-!
Verification development for the post-performance simulator engine
(`src/simulator`).  Machine floats (`f64`) are modelled as exact rationals
(`ℚ`); the two transcendental functions the engine uses, `exp` and `log10`,
are passed in as explicit function parameters (`E` and `L`) so that every
definition stays computable, and theorems that need analytic facts about
`exp` take them as hypotheses (positivity, and boundedness by one on
nonpositive arguments) that the real exponential satisfies.
NaN behaviour is modelled separately (see the `Flt` type below) because ℚ
has no NaN.
-/

namespace XAlg

/-- Media kind of a post; `src/simulator/src/lib.rs` lines 13-19. -/
inductive MediaType where
  | noMedia
  | image
  | video
  | gif
deriving DecidableEq

/-- Fixed media score per kind; `lib.rs` lines 32-39. -/
def MediaType.media_score : MediaType → ℚ
  | .noMedia => 0
  | .image => 0.4
  | .gif => 0.6
  | .video => 0.8

/-- Video indicator; `lib.rs` lines 41-47. -/
def MediaType.is_video : MediaType → ℚ
  | .video => 1
  | _ => 0

/-- Image/gif indicator; `lib.rs` lines 49-55. -/
def MediaType.is_image : MediaType → ℚ
  | .image => 1
  | .gif => 1
  | _ => 0

/-- Engine input; `lib.rs` lines 58-80.  `f64` fields become `ℚ`,
unsigned integers become `ℕ`.  The text is modelled as its sequence of
Unicode code points (Rust iterates it with `chars()`). -/
structure SimulatorInput where
  text : List Char
  media : MediaType
  post_id : Option String
  author_id : Option String
  is_oon : Bool
  video_duration_seconds : Option ℚ
  has_link_override : Option Bool
  followers : ℕ
  following : ℕ
  account_age_days : ℕ
  avg_engagement_rate : ℚ
  posts_per_day : ℚ
  verified : Bool
  hour_of_day : ℕ
  novelty : ℚ
  timeliness : ℚ
  topic_saturation : ℚ
  audience_fit : ℚ
  controversy : ℚ
  sentiment : ℚ
deriving DecidableEq

/-- The `Default` instance for `SimulatorInput`; `lib.rs` lines 82-107. -/
def defaultSimulatorInput : SimulatorInput :=
  { text := []
    media := .noMedia
    post_id := none
    author_id := none
    is_oon := false
    video_duration_seconds := none
    has_link_override := none
    followers := 1000
    following := 500
    account_age_days := 365
    avg_engagement_rate := 0.02
    posts_per_day := 2
    verified := false
    hour_of_day := 12
    novelty := 0.5
    timeliness := 0.5
    topic_saturation := 0.5
    audience_fit := 0.6
    controversy := 0.3
    sentiment := 0.1 }

/-- Lexical features of the text; `lib.rs` lines 109-125.
`uppercase_ratio` from the source is named `uppercase_frac` here. -/
structure TextFeatures where
  char_count : ℕ
  word_count : ℕ
  hashtags : ℕ
  mentions : ℕ
  urls : ℕ
  questions : ℕ
  exclamations : ℕ
  emoji_count : ℕ
  uppercase_frac : ℚ
  avg_word_len : ℚ
  starts_with_number : Bool
  has_hook_word : Bool
  cta_share : Bool
  cta_reply : Bool
deriving DecidableEq

/-- External text-quality score; `lib.rs` lines 127-136 (`LlmScore`). -/
structure LlmScore where
  hook : ℚ
  clarity : ℚ
  novelty : ℚ
  shareability : ℚ
  controversy : ℚ
  sentiment : ℚ
  suggestions : List String
deriving DecidableEq

/-- Trace metadata of the external scorer; `lib.rs` lines 138-148. -/
structure LlmTrace where
  model : String
  latency_ms : ℕ
  prompt_summary : String
  prompt : String
  raw_response : String
  prompt_tokens : Option ℕ
  completion_tokens : Option ℕ
  total_tokens : Option ℕ
deriving DecidableEq

/-- Normalized signal snapshot; `lib.rs` lines 150-164. -/
structure Signals where
  length_score : ℚ
  clarity : ℚ
  hook : ℚ
  novelty : ℚ
  timeliness : ℚ
  shareability : ℚ
  content_quality : ℚ
  author_quality : ℚ
  audience_alignment : ℚ
  negative_risk : ℚ
  media_score : ℚ
  time_score : ℚ
deriving DecidableEq

/-- Per-action probability vector plus the continuous dwell-time estimate;
`lib.rs` lines 166-187. -/
structure ActionProbs where
  like : ℚ
  reply : ℚ
  repost : ℚ
  quote : ℚ
  click : ℚ
  profile_click : ℚ
  video_view : ℚ
  photo_expand : ℚ
  share : ℚ
  share_dm : ℚ
  share_link : ℚ
  dwell : ℚ
  follow_author : ℚ
  quoted_click : ℚ
  not_interested : ℚ
  block : ℚ
  mute : ℚ
  report : ℚ
  dwell_time : ℚ
deriving DecidableEq

/-- Scoring mode; `lib.rs` lines 189-194. -/
inductive ScoringMode where
  | heuristic
  | phoenix
  | hybrid (phoenix_weight : ℚ)
deriving DecidableEq

/-- Virality tier; `lib.rs` lines 214-221. -/
inductive ViralityTier where
  | low
  | moderate
  | high
  | veryHigh
  | breakout
deriving DecidableEq

/-- Per-action linear weights; `src/simulator/src/scoring/weighted.rs`
lines 5-26. -/
structure ActionWeights where
  favorite : ℚ
  reply : ℚ
  repost : ℚ
  photo_expand : ℚ
  click : ℚ
  profile_click : ℚ
  vqv : ℚ
  share : ℚ
  share_dm : ℚ
  share_link : ℚ
  dwell : ℚ
  quote : ℚ
  quoted_click : ℚ
  follow_author : ℚ
  not_interested : ℚ
  block : ℚ
  mute : ℚ
  report : ℚ
  dwell_time : ℚ
deriving DecidableEq

/-- `ActionWeights::default`; `weighted.rs` lines 28-51. -/
def defaultWeights : ActionWeights :=
  { favorite := 1
    reply := 1.6
    repost := 2
    photo_expand := 0.3
    click := 0.4
    profile_click := 0.3
    vqv := 0.5
    share := 1.4
    share_dm := 0.8
    share_link := 0.6
    dwell := 0.2
    quote := 1.7
    quoted_click := 0.5
    follow_author := 1.2
    not_interested := -2.5
    block := -5
    mute := -3
    report := -6
    dwell_time := 0.1 }

/-- Stage-one scorer state; `weighted.rs` lines 53-58. -/
structure WeightedScorer where
  weights : ActionWeights
  vqv_duration_threshold : ℚ
  score_offset : ℚ
deriving DecidableEq

/-- Offset helper; `weighted.rs` lines 107-109. -/
def WeightedScorer.offset_score (self : WeightedScorer) (score : ℚ) : ℚ :=
  score + self.score_offset

/-- `WeightedScorer::score`; `weighted.rs` lines 70-105.  The additions are
kept in source order; the video-quality-view term is added only when a
duration is present and at least the threshold. -/
def WeightedScorer.score (self : WeightedScorer) (actions : ActionProbs)
    (video_duration : Option ℚ) : ℚ :=
  let s1 : ℚ :=
    actions.like * self.weights.favorite
      + actions.reply * self.weights.reply
      + actions.repost * self.weights.repost
      + actions.photo_expand * self.weights.photo_expand
      + actions.click * self.weights.click
      + actions.profile_click * self.weights.profile_click
      + actions.share * self.weights.share
      + actions.share_dm * self.weights.share_dm
      + actions.share_link * self.weights.share_link
      + actions.dwell * self.weights.dwell
      + actions.quote * self.weights.quote
      + actions.quoted_click * self.weights.quoted_click
      + actions.follow_author * self.weights.follow_author
  let s2 : ℚ :=
    match video_duration with
    | some duration =>
        if self.vqv_duration_threshold ≤ duration then
          s1 + actions.video_view * self.weights.vqv
        else s1
    | none => s1
  let s3 : ℚ :=
    s2 + actions.not_interested * self.weights.not_interested
      + actions.block * self.weights.block
      + actions.mute * self.weights.mute
      + actions.report * self.weights.report
  let s4 : ℚ := s3 + actions.dwell_time * self.weights.dwell_time
  if s4 < 0 then self.offset_score s4 else s4

/-- Specification-side base sum: probability times weight over the
always-included weighted actions (no video term). -/
def weightedBaseSum (w : ActionWeights) (a : ActionProbs) : ℚ :=
  ([ (a.like, w.favorite), (a.reply, w.reply), (a.repost, w.repost),
     (a.photo_expand, w.photo_expand), (a.click, w.click),
     (a.profile_click, w.profile_click), (a.share, w.share),
     (a.share_dm, w.share_dm), (a.share_link, w.share_link),
     (a.dwell, w.dwell), (a.quote, w.quote),
     (a.quoted_click, w.quoted_click), (a.follow_author, w.follow_author),
     (a.not_interested, w.not_interested), (a.block, w.block),
     (a.mute, w.mute), (a.report, w.report),
     (a.dwell_time, w.dwell_time) ].map (fun p => p.1 * p.2)).sum

/-- Specification-side video-view term: included exactly when a duration is
present and at least the threshold. -/
def vqvTerm (thr : ℚ) (dur : Option ℚ) (a : ActionProbs)
    (w : ActionWeights) : ℚ :=
  match dur with
  | some d => if thr ≤ d then a.video_view * w.vqv else 0
  | none => 0

/-- Diversity configuration; `src/simulator/src/scoring/diversity.rs`
lines 6-10. -/
structure AuthorDiversityConfig where
  decay : ℚ
  floor : ℚ
deriving DecidableEq

/-- `AuthorDiversityConfig::default`; `diversity.rs` lines 12-19. -/
def defaultDiversity : AuthorDiversityConfig :=
  { decay := 0.7, floor := 0.1 }

/-- Stage-two scorer state; `diversity.rs` lines 21-24. -/
structure AuthorDiversityScorer where
  config : AuthorDiversityConfig
deriving DecidableEq

/-- `AuthorDiversityScorer::multiplier`; `diversity.rs` lines 31-34.
`powi` on a nonnegative occurrence count is natural-number power. -/
def AuthorDiversityScorer.multiplier (self : AuthorDiversityScorer)
    (occurrence : ℕ) : ℚ :=
  (1 - self.config.floor) * self.config.decay ^ occurrence + self.config.floor

/-- Out-of-network configuration; `src/simulator/src/scoring/oon.rs`
lines 5-8. -/
structure OonScorerConfig where
  multiplier : ℚ
deriving DecidableEq

/-- `OonScorerConfig::default`; `oon.rs` lines 10-14. -/
def defaultOon : OonScorerConfig :=
  { multiplier := 0.8 }

/-- Stage-three scorer state; `oon.rs` lines 16-19. -/
structure OonScorer where
  config : OonScorerConfig
deriving DecidableEq

/-- Candidate record threaded through the pipeline;
`src/simulator/src/scoring/pipeline.rs` lines 6-17. -/
structure ScoredCandidate where
  post_id : String
  author_id : String
  is_oon : Bool
  video_duration : Option ℚ
  phoenix_scores : ActionProbs
  weighted_score : ℚ
  diversity_multiplier : ℚ
  oon_multiplier : ℚ
  score : ℚ
deriving DecidableEq

/-- `ScoredCandidate::new`; `pipeline.rs` lines 19-37. -/
def ScoredCandidate.new (post_id author_id : String) (is_oon : Bool)
    (video_duration : Option ℚ) (phoenix_scores : ActionProbs) :
    ScoredCandidate :=
  { post_id, author_id, is_oon, video_duration, phoenix_scores
    weighted_score := 0
    diversity_multiplier := 1
    oon_multiplier := 1
    score := 0 }

/-- `AuthorDiversityScorer::score` walk; `diversity.rs` lines 36-46.  The
`HashMap` of per-author occurrence counts is modelled as a function
`String → ℕ` that starts at zero and is bumped unconditionally after each
candidate. -/
def diversityGo (self : AuthorDiversityScorer) (counts : String → ℕ) :
    List ScoredCandidate → List ScoredCandidate
  | [] => []
  | c :: rest =>
      let occ := counts c.author_id
      let m := self.multiplier occ
      { c with diversity_multiplier := m, score := c.weighted_score * m }
        :: diversityGo self
            (fun a => if a = c.author_id then occ + 1 else counts a) rest

/-- `AuthorDiversityScorer::score`; `diversity.rs` lines 36-46. -/
def AuthorDiversityScorer.score (self : AuthorDiversityScorer)
    (candidates : List ScoredCandidate) : List ScoredCandidate :=
  diversityGo self (fun _ => 0) candidates

/-- `OonScorer::score`; `oon.rs` lines 26-33. -/
def OonScorer.score (self : OonScorer) (candidate : ScoredCandidate)
    (is_oon : Bool) : ScoredCandidate :=
  if is_oon then
    { candidate with
        oon_multiplier := self.config.multiplier
        score := candidate.score * self.config.multiplier }
  else
    { candidate with oon_multiplier := 1 }

/-- Stable descending insertion step: the earlier-original element `c` goes
in front of later-original elements of equal key, matching the tie
behaviour of Rust's stable `sort_by` with the `partial_cmp` comparator of
`pipeline.rs` lines 74-78 and 86. -/
def insertDesc (key : ScoredCandidate → ℚ) (c : ScoredCandidate) :
    List ScoredCandidate → List ScoredCandidate
  | [] => [c]
  | d :: rest =>
      if key d ≤ key c then c :: d :: rest
      else d :: insertDesc key c rest

/-- Stable descending sort of a candidate batch, modelling Rust's stable
`sort_by`; on rational keys the comparator is total, so any stable sort
computes the same list. -/
def sortDesc (key : ScoredCandidate → ℚ) :
    List ScoredCandidate → List ScoredCandidate
  | [] => []
  | c :: rest => insertDesc key c (sortDesc key rest)

/-- Pipeline state; `pipeline.rs` lines 39-44. -/
structure ScoringPipeline where
  weighted_scorer : WeightedScorer
  diversity_scorer : AuthorDiversityScorer
  oon_scorer : OonScorer
deriving DecidableEq

/-- `ScoringPipeline::score`; `pipeline.rs` lines 59-86: weight every
candidate and reset multipliers, sort descending by weighted score, run
the diversity walk, apply the out-of-network discount, then re-sort
descending by final score. -/
def ScoringPipeline.score (self : ScoringPipeline)
    (candidates : List ScoredCandidate) : List ScoredCandidate :=
  let staged := candidates.map (fun c =>
    let w := self.weighted_scorer.score c.phoenix_scores c.video_duration
    { c with
        weighted_score := w
        score := w
        diversity_multiplier := 1
        oon_multiplier := 1 })
  let sorted1 := sortDesc (fun c => c.weighted_score) staged
  let divved := self.diversity_scorer.score sorted1
  let oonned := divved.map (fun c => self.oon_scorer.score c c.is_oon)
  sortDesc (fun c => c.score) oonned

/-- Tier bucketing; `lib.rs` lines 851-863. -/
def tier_from_score (score : ℚ) : ViralityTier :=
  if score < 35 then .low
  else if score < 55 then .moderate
  else if score < 75 then .high
  else if score < 90 then .veryHigh
  else .breakout

/-- Default video duration substitution; `lib.rs` lines 690-698. -/
def derive_video_duration (input : SimulatorInput) : Option ℚ :=
  match input.video_duration_seconds with
  | some duration => some (max duration 0)
  | none => if input.media = .video then some 15 else none

/-- `WeightedConfig::default`; `src/simulator/src/config.rs`
lines 58-65. -/
structure WeightedConfig where
  vqv_duration_threshold : ℚ
  score_offset : ℚ
deriving DecidableEq

/-- Default stage-one configuration; `config.rs` lines 58-65. -/
def defaultWeighted : WeightedConfig :=
  { vqv_duration_threshold := 6, score_offset := 1 }

/-- Scoring-mode configuration record; `config.rs` lines 8-12. -/
structure ScoringModeConfig where
  mode : String
  phoenix_weight : ℚ
deriving DecidableEq

/-- Default scoring-mode configuration; `config.rs` lines 14-21. -/
def defaultScoringModeConfig : ScoringModeConfig :=
  { mode := "hybrid", phoenix_weight := 0.7 }

/-- External ranking-model client configuration; `config.rs`
lines 35-39. -/
structure PhoenixConfig where
  endpoint : String
  timeout_ms : ℕ
  history_limit : ℕ
deriving DecidableEq

/-- Default client configuration; `config.rs` lines 41-49. -/
def defaultPhoenixConfig : PhoenixConfig :=
  { endpoint := "http://localhost:8000", timeout_ms := 5000
    history_limit := 50 }

/-- Full scoring configuration; `config.rs` lines 67-75. -/
structure ScoringConfig where
  scoring : ScoringModeConfig
  weights : ActionWeights
  weighted : WeightedConfig
  diversity : AuthorDiversityConfig
  oon : OonScorerConfig
  phoenix : PhoenixConfig
deriving DecidableEq

/-- `ScoringConfig::default`; `config.rs` lines 77-88. -/
def defaultScoringConfig : ScoringConfig :=
  { scoring := defaultScoringModeConfig
    weights := defaultWeights
    weighted := defaultWeighted
    diversity := defaultDiversity
    oon := defaultOon
    phoenix := defaultPhoenixConfig }

/-- Clamp to the unit interval; `lib.rs` lines 884-889.  The source first
returns 0 on NaN; ℚ has no NaN, so that branch is modelled separately with
the `Flt` type below. -/
def clamp01 (value : ℚ) : ℚ :=
  min (max value 0) 1

/-- Boolean indicator; `lib.rs` lines 891-897. -/
def bool_to_f64 (value : Bool) : ℚ :=
  if value then 1 else 0

/-- Guarded base-10 logarithm; `lib.rs` lines 899-905.  `L` stands for
`log10` on positive arguments. -/
def log10_safe (L : ℚ → ℚ) (value : ℚ) : ℚ :=
  if value ≤ 0 then 0 else L value

/-- Logistic transform; `lib.rs` lines 880-882.  `E` stands for `exp`. -/
def sigmoid (E : ℚ → ℚ) (x : ℚ) : ℚ :=
  1 / (1 + E (-x))

/-- Gaussian bump; `lib.rs` lines 872-878. -/
def gaussian (E : ℚ → ℚ) (x center width : ℚ) : ℚ :=
  if width ≤ 0 then 0
  else
    let z := (x - center) / width
    E (-z * z)

/-- Signal blending, re-clamped to the unit interval; `lib.rs`
lines 907-909. -/
def blend_signal (base overlay weight : ℚ) : ℚ :=
  clamp01 (base * (1 - weight) + overlay * weight)

/-- Sentiment blending, clamped to [-1,1]; `lib.rs` lines 911-914. -/
def blend_sentiment (base overlay weight : ℚ) : ℚ :=
  min (max (base * (1 - weight) + overlay * weight) (-1)) 1

/-- Dwell-time estimate clamped to [0,60]; `lib.rs` lines 700-706. -/
def estimate_dwell_time (char_count : ℕ) (media_score dwell_prob : ℚ) : ℚ :=
  let base := 1.5 + (char_count : ℚ) / 80
  let media_lift := 6 * media_score
  let dwell_lift := 10 * dwell_prob
  let estimate := base + media_lift + dwell_lift
  min (max estimate 0) 60

/-- Two-peak time-of-day activity score; `lib.rs` lines 865-870. -/
def time_of_day_score (E : ℚ → ℚ) (hour : ℕ) : ℚ :=
  let h : ℚ := (min hour 23 : ℕ)
  max (gaussian E h 9 3.5) (gaussian E h 20 3.5)

/-- Case/whitespace normalization for suggestion deduplication; `lib.rs`
lines 916-922. -/
def normalize_text (value : String) : String :=
  String.intercalate (" ")
    ((value.toLower.split (fun c => c.isWhitespace)).filter
      (fun w => w ≠ ""))

/-- External-suggestion walk of `merge_suggestions`; `lib.rs`
lines 806-815.  The `HashSet` of already-seen normalized strings is
modelled as a list used only through membership. -/
def mergeExtras (seen : List String) : List String → List String
  | [] => []
  | s :: rest =>
      let normalized := normalize_text s
      if normalized = "" ∨ normalized ∈ seen then mergeExtras seen rest
      else s :: mergeExtras (normalized :: seen) rest

/-- `merge_suggestions`; `lib.rs` lines 806-819: append deduplicated
external suggestions after the local ones, then truncate to 10 when the
merged list is longer. -/
def merge_suggestions (base extras : List String) : List String :=
  let merged := base ++ mergeExtras (base.map normalize_text) extras
  if 10 < merged.length then merged.take 10 else merged

/-- Scanner for the non-overlapping leftmost substring count: `skip`
characters are consumed without testing after a match, so the next test
happens right after the matched occurrence. -/
def countOccsGo (needle : List Char) : ℕ → List Char → ℕ
  | _, [] => 0
  | 0, c :: rest =>
      if needle.isPrefixOf (c :: rest) ∧ needle ≠ [] then
        1 + countOccsGo needle (needle.length - 1) rest
      else
        countOccsGo needle 0 rest
  | k + 1, _ :: rest => countOccsGo needle k rest

/-- Non-overlapping leftmost substring occurrence count on character
sequences, modelling Rust's `str::matches(needle).count()` for the
nonempty needles the extractor uses. -/
def countOccs (needle hay : List Char) : ℕ :=
  countOccsGo needle 0 hay

/-- Substring test, modelling Rust's `str::contains` for the nonempty
string needles the extractor uses. -/
def containsSub (hay needle : List Char) : Bool :=
  decide (1 ≤ countOccs needle hay)

/-- Word statistics of `extract_text_features`; `lib.rs` lines 296-304:
total ASCII-alphabetic letters over whitespace-separated words that
contain at least one, and the number of such words (chunks without
letters, including the empty chunks `split_whitespace` discards, are
skipped by the positivity test). -/
def wordStats (text : List Char) : ℕ × ℕ :=
  (text.splitOnP (fun c => c.isWhitespace)).foldl
    (fun acc w =>
      let len := (w.filter (fun c => c.isAlpha)).length
      if 0 < len then (acc.1 + len, acc.2 + 1) else acc)
    (0, 0)

/-- The fixed hook-word lexicon; `lib.rs` lines 324-327. -/
def hookWords : List (List Char) :=
  [("how").toList, ("why").toList, ("what").toList, ("stop").toList,
   ("new").toList, ("breaking").toList, ("secret").toList,
   ("tips").toList, ("guide").toList, ("learn").toList,
   ("thread").toList, ("facts").toList, ("proof").toList,
   ("mistakes").toList, ("warning").toList]

/-- `extract_text_features`; `lib.rs` lines 259-353.  One character scan
for `#`, `@`, `?`, `!`, non-ASCII code points and letter case; substring
counts for links; whitespace tokenization for word statistics; fixed
lexicons for hook words and calls to action.  The source counts a
non-ASCII code point in the wildcard arm of its match; since the four
matched characters are ASCII, this equals counting all code points above
0x7f. -/
def extract_text_features (text : List Char) : TextFeatures :=
  let hashtags := (text.filter (fun c => c = '#')).length
  let mentions := (text.filter (fun c => c = '@')).length
  let questions := (text.filter (fun c => c = '?')).length
  let exclamations := (text.filter (fun c => c = '!')).length
  let emoji_count := (text.filter (fun c => 0x7f < c.toNat)).length
  let letters := (text.filter (fun c => c.isAlpha)).length
  let uppercase := (text.filter (fun c => c.isUpper)).length
  let lowercase := text.map Char.toLower
  let urls := countOccs ("http://").toList lowercase
    + countOccs ("https://").toList lowercase
    + countOccs ("www.").toList lowercase
  let ws := wordStats text
  let word_total := ws.1
  let word_count := ws.2
  let avg_word_len : ℚ :=
    if word_count = 0 then 0 else (word_total : ℚ) / (word_count : ℚ)
  let uppercase_frac : ℚ :=
    if letters = 0 then 0 else (uppercase : ℚ) / (letters : ℚ)
  let starts_with_number :=
    ((text.find? (fun c => !c.isWhitespace)).map
      (fun c => c.isDigit)).getD false
  let has_hook_word := hookWords.any (fun w => containsSub lowercase w)
  let cta_share :=
    [("retweet").toList, ("repost").toList, ("share").toList,
     ("rt ").toList, ("boost").toList].any
      (fun w => containsSub lowercase w)
  let cta_reply :=
    [("thoughts").toList, ("what do you think").toList,
     ("agree").toList, ("disagree").toList, ("reply").toList,
     ("comment").toList].any (fun w => containsSub lowercase w)
  { char_count := text.length
    word_count := word_count
    hashtags, mentions, urls, questions, exclamations, emoji_count
    uppercase_frac, avg_word_len, starts_with_number, has_hook_word
    cta_share, cta_reply }

/-- Features of the input text; `lib.rs` line 390. -/
def featuresOf (i : SimulatorInput) : TextFeatures :=
  extract_text_features i.text

/-- Link presence with override; `lib.rs` lines 392-394. -/
def hasLink (i : SimulatorInput) : Bool :=
  i.has_link_override.getD (decide (0 < (featuresOf i).urls))

/-- Link indicator; `lib.rs` line 395. -/
def linkFlag (i : SimulatorInput) : ℚ :=
  bool_to_f64 (hasLink i)

/-- Length Gaussian; `lib.rs` line 397. -/
def lengthScore (E : ℚ → ℚ) (i : SimulatorInput) : ℚ :=
  gaussian E ((featuresOf i).char_count : ℚ) 140 70

/-- Readability Gaussian; `lib.rs` line 398. -/
def readabilityScore (E : ℚ → ℚ) (i : SimulatorInput) : ℚ :=
  gaussian E (featuresOf i).avg_word_len 5 2

/-- Spamminess signal; `lib.rs` lines 400-410. -/
def spamminess (i : SimulatorInput) : ℚ :=
  let f := featuresOf i
  let exclaim_factor := min ((f.exclamations : ℚ) / 3) 1
  let hashtag_factor := min ((f.hashtags : ℚ) / 5) 1
  let mention_factor := min ((f.mentions : ℚ) / 4) 1
  clamp01 (0.2 * exclaim_factor + 0.25 * hashtag_factor
    + 0.2 * mention_factor + 0.3 * clamp01 (f.uppercase_frac / 0.4)
    + 0.2 * linkFlag i)

/-- Base hook signal; `lib.rs` lines 412-417. -/
def baseHook (i : SimulatorInput) : ℚ :=
  let f := featuresOf i
  clamp01 (0.35 * bool_to_f64 (decide (0 < f.questions))
    + 0.2 * bool_to_f64 (decide (0 < f.exclamations))
    + 0.25 * bool_to_f64 f.starts_with_number
    + 0.2 * bool_to_f64 f.has_hook_word)

/-- Base clarity signal; `lib.rs` lines 419-420. -/
def baseClarity (E : ℚ → ℚ) (i : SimulatorInput) : ℚ :=
  clamp01 (0.5 * lengthScore E i + 0.3 * readabilityScore E i
    + 0.2 * (1 - spamminess i))

/-- Novelty, clamped then optionally blended with the external score;
`lib.rs` lines 421 and 431. -/
def noveltySig (i : SimulatorInput) (llm : Option LlmScore) : ℚ :=
  match llm with
  | some s => blend_signal (clamp01 i.novelty) (clamp01 s.novelty) 0.6
  | none => clamp01 i.novelty

/-- Timeliness, clamped; `lib.rs` line 422. -/
def timelinessSig (i : SimulatorInput) : ℚ :=
  clamp01 i.timeliness

/-- Controversy, clamped then optionally blended; `lib.rs` lines 423
and 432. -/
def controversySig (i : SimulatorInput) (llm : Option LlmScore) : ℚ :=
  match llm with
  | some s =>
      blend_signal (clamp01 i.controversy) (clamp01 s.controversy) 0.5
  | none => clamp01 i.controversy

/-- Sentiment, clamped to [-1,1] then optionally blended; `lib.rs`
lines 424 and 433. -/
def sentimentSig (i : SimulatorInput) (llm : Option LlmScore) : ℚ :=
  match llm with
  | some s => blend_sentiment (min (max i.sentiment (-1)) 1) s.sentiment 0.5
  | none => min (max i.sentiment (-1)) 1

/-- Hook, optionally blended; `lib.rs` lines 426-429. -/
def hookSig (i : SimulatorInput) (llm : Option LlmScore) : ℚ :=
  match llm with
  | some s => blend_signal (baseHook i) (clamp01 s.hook) 0.6
  | none => baseHook i

/-- Clarity, optionally blended; `lib.rs` lines 427-430. -/
def claritySig (E : ℚ → ℚ) (i : SimulatorInput)
    (llm : Option LlmScore) : ℚ :=
  match llm with
  | some s => blend_signal (baseClarity E i) (clamp01 s.clarity) 0.6
  | none => baseClarity E i

/-- Shareability, optionally blended; `lib.rs` lines 436-444. -/
def shareabilitySig (E : ℚ → ℚ) (i : SimulatorInput)
    (llm : Option LlmScore) : ℚ :=
  let f := featuresOf i
  let base := clamp01 (0.4 * hookSig i llm + 0.3 * noveltySig i llm
    + 0.2 * claritySig E i llm + 0.1 * bool_to_f64 f.cta_share)
  match llm with
  | some s => blend_signal base (clamp01 s.shareability) 0.6
  | none => base

/-- Content quality; `lib.rs` line 446. -/
def contentQuality (E : ℚ → ℚ) (i : SimulatorInput)
    (llm : Option LlmScore) : ℚ :=
  clamp01 (0.45 * claritySig E i llm + 0.25 * hookSig i llm
    + 0.2 * noveltySig i llm + 0.1 * timelinessSig i)

/-- Follower log; `lib.rs` line 448. -/
def followersLog (L : ℚ → ℚ) (i : SimulatorInput) : ℚ :=
  log10_safe L ((i.followers : ℚ) + 1)

/-- Author strength; `lib.rs` line 449. -/
def authorStrength (L : ℚ → ℚ) (i : SimulatorInput) : ℚ :=
  clamp01 ((followersLog L i - 2) / 3)

/-- Follower/following ratio; `lib.rs` lines 451-455. -/
def ratioVal (i : SimulatorInput) : ℚ :=
  if i.following = 0 then 1 else (i.followers : ℚ) / (i.following : ℚ)

/-- Log-scaled ratio score; `lib.rs` line 456. -/
def ratioScore (L : ℚ → ℚ) (i : SimulatorInput) : ℚ :=
  clamp01 (log10_safe L (ratioVal i + 1) / 2)

/-- Account-age score; `lib.rs` lines 458-459. -/
def ageScore (i : SimulatorInput) : ℚ :=
  clamp01 ((i.account_age_days : ℚ) / 365 / 5)

/-- Engagement-rate score; `lib.rs` line 461. -/
def engScore (i : SimulatorInput) : ℚ :=
  clamp01 (i.avg_engagement_rate / 0.06)

/-- Posting-cadence Gaussian; `lib.rs` line 463. -/
def cadenceScore (E : ℚ → ℚ) (i : SimulatorInput) : ℚ :=
  gaussian E i.posts_per_day 2 2.5

/-- Verified bonus; `lib.rs` line 464. -/
def verifiedBonus (i : SimulatorInput) : ℚ :=
  if i.verified then 0.1 else 0

/-- Author quality; `lib.rs` lines 466-473. -/
def authorQuality (E L : ℚ → ℚ) (i : SimulatorInput) : ℚ :=
  clamp01 (0.35 * authorStrength L i + 0.2 * ageScore i + 0.2 * engScore i
    + 0.15 * ratioScore L i + 0.1 * cadenceScore E i + verifiedBonus i)

/-- Topic saturation, clamped; `lib.rs` line 475. -/
def topicSaturationSig (i : SimulatorInput) : ℚ :=
  clamp01 i.topic_saturation

/-- Audience fit, clamped; `lib.rs` line 476. -/
def audienceFitSig (i : SimulatorInput) : ℚ :=
  clamp01 i.audience_fit

/-- Audience alignment; `lib.rs` lines 478-479. -/
def audienceAlignment (L : ℚ → ℚ) (i : SimulatorInput) : ℚ :=
  clamp01 (0.6 * audienceFitSig i + 0.2 * (1 - topicSaturationSig i)
    + 0.2 * ratioScore L i)

/-- Negative risk; `lib.rs` lines 481-489. -/
def negativeRisk (i : SimulatorInput) (llm : Option LlmScore) : ℚ :=
  let f := featuresOf i
  let negative_sentiment := max (-(sentimentSig i llm)) 0
  let caps_risk := clamp01 (f.uppercase_frac / 0.35) * 0.2
  clamp01 (0.4 * controversySig i llm + 0.25 * spamminess i
    + 0.15 * negative_sentiment + caps_risk
    + 0.1 * topicSaturationSig i)

/-- Positive signal; `lib.rs` line 491. -/
def positiveSignal (E L : ℚ → ℚ) (i : SimulatorInput)
    (llm : Option LlmScore) : ℚ :=
  clamp01 (0.4 * contentQuality E i llm + 0.35 * authorQuality E L i
    + 0.25 * audienceAlignment L i)

/-- Viral lift; `lib.rs` line 492. -/
def viralLift (i : SimulatorInput) (llm : Option LlmScore) : ℚ :=
  clamp01 (0.5 * hookSig i llm + 0.3 * noveltySig i llm
    + 0.2 * i.media.media_score)

/-- Shared logit base; `lib.rs` line 494. -/
def baseVal (E L : ℚ → ℚ) (i : SimulatorInput)
    (llm : Option LlmScore) : ℚ :=
  -2 + 3.2 * positiveSignal E L i llm + 1.4 * viralLift i llm
    - 2.2 * negativeRisk i llm

/-- Heuristic per-action probabilities and dwell-time estimate; `lib.rs`
lines 496-547. -/
def heuristicActions (E L : ℚ → ℚ) (i : SimulatorInput)
    (llm : Option LlmScore) : ActionProbs :=
  let f := featuresOf i
  let media_score := i.media.media_score
  let link_flag := linkFlag i
  let base := baseVal E L i llm
  let has_question := bool_to_f64 (decide (0 < f.questions))
  let cta_reply := bool_to_f64 f.cta_reply
  let cta_share := bool_to_f64 f.cta_share
  let is_video := i.media.is_video
  let is_image := i.media.is_image
  let dwell := sigmoid E (base + 0.2 * lengthScore E i + 0.4 * media_score
    - 0.2 * link_flag)
  { like := sigmoid E (base + 0.6 * media_score
      + 0.2 * max (sentimentSig i llm) 0)
    reply := sigmoid E (base - 0.2 * media_score + 0.6 * has_question
      + 0.3 * controversySig i llm + 0.2 * cta_reply)
    repost := sigmoid E (base + 0.6 * shareabilitySig E i llm
      + 0.3 * noveltySig i llm - 0.3 * link_flag + 0.1 * cta_share)
    quote := sigmoid E (base + 0.4 * controversySig i llm
      + 0.2 * noveltySig i llm)
    click := sigmoid E (base + 0.9 * link_flag + 0.2 * hookSig i llm)
    profile_click := sigmoid E (base + 0.5 * authorQuality E L i
      + 0.2 * noveltySig i llm)
    video_view := sigmoid E (base + 1.2 * is_video + 0.2 * hookSig i llm)
    photo_expand := sigmoid E (base + 1 * is_image + 0.1 * hookSig i llm)
    share := sigmoid E (base + 0.5 * shareabilitySig E i llm
      + 0.2 * noveltySig i llm)
    share_dm := sigmoid E (base + 0.35 * shareabilitySig E i llm
      + 0.1 * noveltySig i llm - 0.1 * link_flag)
    share_link := sigmoid E (base + 0.25 * shareabilitySig E i llm
      + 0.2 * link_flag)
    dwell := dwell
    follow_author := sigmoid E (base + 0.6 * authorQuality E L i
      + 0.2 * hookSig i llm)
    quoted_click := sigmoid E (base + 0.4 * controversySig i llm
      + 0.2 * hookSig i llm + 0.1 * noveltySig i llm)
    not_interested := sigmoid E (-1 + 2.2 * negativeRisk i llm
      + 0.6 * topicSaturationSig i - 0.8 * audienceAlignment L i)
    block := sigmoid E (-2 + 2.6 * negativeRisk i llm
      + 0.6 * controversySig i llm)
    mute := sigmoid E (-1.8 + 2.3 * negativeRisk i llm
      + 0.8 * topicSaturationSig i)
    report := sigmoid E (-2.4 + 2.8 * negativeRisk i llm
      + 0.6 * controversySig i llm)
    dwell_time := estimate_dwell_time f.char_count media_score dwell }

/-- Signal snapshot of the output; `lib.rs` lines 617-630. -/
def signalsOf (E L : ℚ → ℚ) (i : SimulatorInput)
    (llm : Option LlmScore) : Signals :=
  { length_score := lengthScore E i
    clarity := claritySig E i llm
    hook := hookSig i llm
    novelty := noveltySig i llm
    timeliness := timelinessSig i
    shareability := shareabilitySig E i llm
    content_quality := contentQuality E i llm
    author_quality := authorQuality E L i
    audience_alignment := audienceAlignment L i
    negative_risk := negativeRisk i llm
    media_score := i.media.media_score
    time_score := time_of_day_score E i.hour_of_day }

/-- Per-field blend of two action vectors; `lib.rs` lines 708-733.
Probability fields are re-clamped to the unit interval; the dwell-time
field is a plain linear interpolation with no clamp. -/
def blend_actions (base overlay : ActionProbs) (weight : ℚ) : ActionProbs :=
  let blend_prob := fun (a b : ℚ) => clamp01 (a * (1 - weight) + b * weight)
  let blend_value := fun (a b : ℚ) => a * (1 - weight) + b * weight
  { like := blend_prob base.like overlay.like
    reply := blend_prob base.reply overlay.reply
    repost := blend_prob base.repost overlay.repost
    quote := blend_prob base.quote overlay.quote
    click := blend_prob base.click overlay.click
    profile_click := blend_prob base.profile_click overlay.profile_click
    video_view := blend_prob base.video_view overlay.video_view
    photo_expand := blend_prob base.photo_expand overlay.photo_expand
    share := blend_prob base.share overlay.share
    share_dm := blend_prob base.share_dm overlay.share_dm
    share_link := blend_prob base.share_link overlay.share_link
    dwell := blend_prob base.dwell overlay.dwell
    follow_author := blend_prob base.follow_author overlay.follow_author
    quoted_click := blend_prob base.quoted_click overlay.quoted_click
    not_interested := blend_prob base.not_interested overlay.not_interested
    block := blend_prob base.block overlay.block
    mute := blend_prob base.mute overlay.mute
    report := blend_prob base.report overlay.report
    dwell_time := blend_value base.dwell_time overlay.dwell_time }

/-- Selection of the served action vector per scoring mode; `lib.rs`
lines 549-561.  Heuristic serves the heuristic vector; Phoenix serves the
external vector unchanged when present, falling back to the heuristic one;
Hybrid blends when an external vector is present. -/
def resolveActions (mode : ScoringMode) (phoenix_actions : Option ActionProbs)
    (heuristic_actions : ActionProbs) : ActionProbs :=
  match mode, phoenix_actions with
  | .heuristic, _ => heuristic_actions
  | .phoenix, pa => pa.getD heuristic_actions
  | .hybrid w, some pa => blend_actions heuristic_actions pa w
  | .hybrid _, none => heuristic_actions

/-- Full simulation result; `lib.rs` lines 235-257. -/
structure SimulationOutput where
  score : ℚ
  tier : ViralityTier
  scoring_mode : ScoringMode
  weighted_score : ℚ
  diversity_multiplier : ℚ
  oon_multiplier : ℚ
  final_score : ℚ
  impressions_in : ℚ
  impressions_oon : ℚ
  impressions_total : ℚ
  expected_unique_engagements : ℚ
  expected_action_volume : ℚ
  unique_engagement_rate : ℚ
  action_volume_rate : ℚ
  actions : ActionProbs
  phoenix_actions : Option ActionProbs
  signals : Signals
  suggestions : List String
  llm : Option LlmScore
  llm_trace : Option LlmTrace
deriving DecidableEq

/-- Positive-intent probability list; `lib.rs` lines 833-849. -/
def positive_action_probs (actions : ActionProbs) : List ℚ :=
  [actions.like, actions.reply, actions.repost, actions.quote,
   actions.share, actions.share_dm, actions.share_link, actions.click,
   actions.profile_click, actions.follow_author, actions.video_view,
   actions.photo_expand, actions.quoted_click]

/-- Sum of positive-intent probabilities; `lib.rs` lines 821-823. -/
def action_volume_rate (actions : ActionProbs) : ℚ :=
  (positive_action_probs actions).sum

/-- Complement of the no-engagement product; `lib.rs` lines 825-831. -/
def unique_engagement_rate (actions : ActionProbs) : ℚ :=
  let none_probability :=
    (positive_action_probs actions).foldl
      (fun acc p => acc * (1 - clamp01 p)) 1
  clamp01 (1 - none_probability)

/-- Rule list of local authoring suggestions; `lib.rs` lines 746-804, in
source push order. -/
def build_suggestions (input : SimulatorInput) (features : TextFeatures)
    (signals : Signals) (actions : ActionProbs)
    (weighted_score : ℚ) : List String :=
  (if features.char_count < 50 then
    [("Add a clearer hook and more context; aim for ~80-200 characters.")]
   else [])
  ++ (if 260 < features.char_count then
    [("Trim to under ~220 characters to improve early engagement velocity.")]
   else [])
  ++ (if 3 < features.hashtags then
    [("Reduce hashtags to 1-2; too many can look spammy.")]
   else [])
  ++ (if 2 < features.mentions then
    [("Limit mentions; too many can reduce reach and clarity.")]
   else [])
  ++ (if input.has_link_override.getD (decide (0 < features.urls)) then
    [("Links often reduce in-feed engagement; consider moving the link to a reply.")]
   else [])
  ++ (if input.media = .noMedia ∧ features.char_count < 160 then
    [("Consider adding an image or video to boost dwell and shares.")]
   else [])
  ++ (if signals.hook < 0.35 then
    [("Strengthen the first line with a question, surprising stat, or bold claim.")]
   else [])
  ++ (if signals.shareability < 0.4 then
    [("Make it more shareable: concise takeaway, list, or strong opinion.")]
   else [])
  ++ (if signals.clarity < 0.5 then
    [("Simplify wording; shorter words and fewer clauses improve scanability.")]
   else [])
  ++ (if 0.3 < features.uppercase_frac then
    [("Reduce ALL CAPS; it increases negative feedback signals.")]
   else [])
  ++ (if 0.55 < signals.negative_risk then
    [("Tone down contentious framing to reduce not-interested/report signals.")]
   else [])
  ++ (if 0.6 < input.topic_saturation then
    [("High topic saturation; use a unique angle or niche framing.")]
   else [])
  ++ (if input.audience_fit < 0.5 then
    [("Align the topic with follower interests to boost initial velocity.")]
   else [])
  ++ (if signals.time_score < 0.4 then
    [("Post during peak hours (around 9-11am or 7-9pm local).")]
   else [])
  ++ (if weighted_score < 0.8 then
    [("Focus on increasing repost/share intent; that is a main driver of out-of-network reach.")]
   else [])
  ++ (if actions.reply < 0.02 ∧ features.questions = 0 then
    [("Invite replies with a direct question or a clear prompt.")]
   else [])

/-- Post id with hashed fallback; `lib.rs` lines 672-677.  The SHA-256
based hex digest is kept abstract as the function parameter `H`. -/
def derive_post_id (H : List Char → String) (input : SimulatorInput) :
    String :=
  match input.post_id with
  | some p => p
  | none => ("post_") ++ H input.text

/-- Author id with hashed fallback; `lib.rs` lines 679-688. -/
def derive_author_id (H : List Char → String) (input : SimulatorInput) :
    String :=
  match input.author_id with
  | some a => a
  | none =>
      ("author_") ++ H ((toString input.followers ++ (":")
        ++ toString input.following ++ (":")
        ++ toString input.account_age_days ++ (":")
        ++ toString input.verified).toList)

/-- Pipeline assembly from configuration; `lib.rs` lines 661-670. -/
def build_pipeline (config : ScoringConfig) : ScoringPipeline :=
  { weighted_scorer :=
      { weights := config.weights
        vqv_duration_threshold := config.weighted.vqv_duration_threshold
        score_offset := config.weighted.score_offset }
    diversity_scorer := { config := config.diversity }
    oon_scorer := { config := config.oon } }

/-- Fallback candidate of the `unwrap_or_else`; `lib.rs`
lines 572-580. -/
def fallbackCandidate (actions : ActionProbs) : ScoredCandidate :=
  ScoredCandidate.new ("post") ("author") false none actions

/-- The candidate record after the pipeline run of `simulate_with_mode`;
`lib.rs` lines 563-580: the single candidate is scored by the full
three-stage pipeline, and `Vec::pop` takes the last element of the batch,
falling back to `fallbackCandidate` on an empty batch. -/
def candidateOf (H : List Char → String) (input : SimulatorInput)
    (scoring_config : ScoringConfig) (actions : ActionProbs) :
    ScoredCandidate :=
  (((build_pipeline scoring_config).score
      [ScoredCandidate.new (derive_post_id H input)
        (derive_author_id H input) input.is_oon
        (derive_video_duration input) actions]).getLast?).getD
    (fallbackCandidate actions)

/-- In-network impressions; `lib.rs` lines 587-592. -/
def impressionsInOf (E L : ℚ → ℚ) (input : SimulatorInput) : ℚ :=
  (input.followers : ℚ)
    * (0.015 + 0.08 * time_of_day_score E input.hour_of_day)
    * max (0.6 + 0.4 * audienceAlignment L input) 0

/-- Raw out-of-network impressions before the sign guard; `lib.rs`
lines 594-600. -/
def impressionsOonRaw (E L : ℚ → ℚ) (input : SimulatorInput)
    (llm : Option LlmScore) (weighted_score : ℚ) : ℚ :=
  (300 + 1400 * positiveSignal E L input llm)
    * (1 + clamp01 ((weighted_score - 1) / 3) * 4)
    * (0.5 + 0.5 * contentQuality E input llm)
    * (1 - 0.7 * topicSaturationSig input)
    * (1 - 0.5 * negativeRisk input llm)

/-- Out-of-network impressions floored at zero; `lib.rs` lines 602-604
(the NaN guard of the source is vacuous over ℚ). -/
def impressionsOonOf (E L : ℚ → ℚ) (input : SimulatorInput)
    (llm : Option LlmScore) (weighted_score : ℚ) : ℚ :=
  if impressionsOonRaw E L input llm weighted_score < 0 then 0
  else impressionsOonRaw E L input llm weighted_score

/-- The final suggestions list; `lib.rs` lines 632-635: local rules, then
the external merge when an external score is present. -/
def suggestionsOf (E L : ℚ → ℚ) (input : SimulatorInput)
    (llm : Option LlmScore) (actions : ActionProbs)
    (weighted_score : ℚ) : List String :=
  match llm with
  | some sc =>
      merge_suggestions
        (build_suggestions input (featuresOf input)
          (signalsOf E L input llm) actions weighted_score)
        sc.suggestions
  | none =>
      build_suggestions input (featuresOf input) (signalsOf E L input llm)
        actions weighted_score

/-- The composite-score argument; `lib.rs` line 613. -/
def rawScoreOf (L : ℚ → ℚ) (final_score impressions_total : ℚ) : ℚ :=
  (final_score - 1) * 0.8
    + (log10_safe L (impressions_total + 1) - 3) * 0.4

/-- Everything `simulate_with_mode` computes after the served action
vector has been selected; `lib.rs` lines 563-658.  The scoring mode and
the external vector are used past this point only to fill the two output
fields that echo them. -/
def simulateCore (E L : ℚ → ℚ) (H : List Char → String)
    (input : SimulatorInput) (llm : Option LlmScore)
    (llm_trace : Option LlmTrace) (scoring_mode : ScoringMode)
    (phoenix_actions : Option ActionProbs)
    (scoring_config : ScoringConfig) (actions : ActionProbs) :
    SimulationOutput :=
  let candidate := candidateOf H input scoring_config actions
  let impressions_in := impressionsInOf E L input
  let impressions_oon :=
    impressionsOonOf E L input llm candidate.weighted_score
  let impressions_total := impressions_in + impressions_oon
  let score :=
    100 * sigmoid E (rawScoreOf L candidate.score impressions_total)
  { score := score
    tier := tier_from_score score
    scoring_mode := scoring_mode
    weighted_score := candidate.weighted_score
    diversity_multiplier := candidate.diversity_multiplier
    oon_multiplier := candidate.oon_multiplier
    final_score := candidate.score
    impressions_in := impressions_in
    impressions_oon := impressions_oon
    impressions_total := impressions_total
    expected_unique_engagements :=
      impressions_total * unique_engagement_rate actions
    expected_action_volume := impressions_total * action_volume_rate actions
    unique_engagement_rate := unique_engagement_rate actions
    action_volume_rate := action_volume_rate actions
    actions := actions
    phoenix_actions := phoenix_actions
    signals := signalsOf E L input llm
    suggestions :=
      suggestionsOf E L input llm actions candidate.weighted_score
    llm := llm
    llm_trace := llm_trace }

/-- The engine entry point `simulate_with_mode`; `lib.rs` lines 382-659.
`E` and `L` are the `exp` and `log10` primitives and `H` the hex digest of
the SHA-256 fallback ids.  Lines 390-561 select the served action vector
(`resolveActions` over the heuristic vector); `simulateCore` is the rest
of the function body.  The single candidate is run through the full
three-stage pipeline; `Vec::pop` takes the last element of the scored
batch, with the same fallback candidate as the source. -/
def simulate_with_mode (E L : ℚ → ℚ) (H : List Char → String)
    (input : SimulatorInput) (llm : Option LlmScore)
    (llm_trace : Option LlmTrace) (scoring_mode : ScoringMode)
    (phoenix_actions : Option ActionProbs)
    (scoring_config : ScoringConfig) : SimulationOutput :=
  simulateCore E L H input llm llm_trace scoring_mode phoenix_actions
    scoring_config
    (resolveActions scoring_mode phoenix_actions
      (heuristicActions E L input llm))

/-- Machine float with NaN, for the NaN-handling layer of the engine:
either NaN or a finite value modelled as a rational.  Infinities are not
produced by the modelled code paths. -/
inductive Flt where
  | nan
  | val (q : ℚ)
deriving DecidableEq

/-- IEEE-style NaN-propagating division (the modelled call sites divide by
a positive constant, so division by zero does not arise). -/
def Flt.div : Flt → Flt → Flt
  | .nan, _ => .nan
  | _, .nan => .nan
  | .val a, .val b => .val (a / b)

/-- Rust `f64::max`: if one argument is NaN the other is returned. -/
def Flt.rustMax : Flt → Flt → Flt
  | .nan, y => y
  | x, .nan => x
  | .val a, .val b => .val (max a b)

/-- Rust `f64::min`: if one argument is NaN the other is returned. -/
def Flt.rustMin : Flt → Flt → Flt
  | .nan, y => y
  | x, .nan => x
  | .val a, .val b => .val (min a b)

/-- `clamp01` on floats; `lib.rs` lines 884-889: NaN collapses to 0,
otherwise clamp to the unit interval with `max`/`min`. -/
def clamp01F : Flt → Flt
  | .nan => .val 0
  | .val v => .val (min (max v 0) 1)

/-- The sentiment sanitization of `simulate_with_mode`; `lib.rs`
line 424: `input.sentiment.max(-1.0).min(1.0)` with Rust NaN-ignoring
`max`/`min`. -/
def sentimentSanitize (x : Flt) : Flt :=
  Flt.rustMin (Flt.rustMax x (.val (-1))) (.val 1)

/-- The engagement-rate sanitization path; `lib.rs` line 461:
`clamp01(input.avg_engagement_rate / 0.06)`. -/
def engScoreF (x : Flt) : Flt :=
  clamp01F (Flt.div x (.val 0.06))

/-- Membership in the unit interval. -/
def unitIv (x : ℚ) : Prop :=
  0 ≤ x ∧ x ≤ 1

/-- All action-probability fields lie in the unit interval and the
dwell-time field in [0,60]. -/
def ActionProbsInRange (a : ActionProbs) : Prop :=
  unitIv a.like ∧ unitIv a.reply ∧ unitIv a.repost ∧ unitIv a.quote ∧
  unitIv a.click ∧ unitIv a.profile_click ∧ unitIv a.video_view ∧
  unitIv a.photo_expand ∧ unitIv a.share ∧ unitIv a.share_dm ∧
  unitIv a.share_link ∧ unitIv a.dwell ∧ unitIv a.follow_author ∧
  unitIv a.quoted_click ∧ unitIv a.not_interested ∧ unitIv a.block ∧
  unitIv a.mute ∧ unitIv a.report ∧
  (0 ≤ a.dwell_time ∧ a.dwell_time ≤ 60)

/-- Every field of the signal snapshot lies in the unit interval (the
snapshot has no sentiment field). -/
def SignalsInRange (s : Signals) : Prop :=
  unitIv s.length_score ∧ unitIv s.clarity ∧ unitIv s.hook ∧
  unitIv s.novelty ∧ unitIv s.timeliness ∧ unitIv s.shareability ∧
  unitIv s.content_quality ∧ unitIv s.author_quality ∧
  unitIv s.audience_alignment ∧ unitIv s.negative_risk ∧
  unitIv s.media_score ∧ unitIv s.time_score

/-- The per-field clamp of an external action vector: probability fields
are clamped to the unit interval, the dwell-time field (not a
probability) is passed through. -/
def clampExternal (e : ActionProbs) : ActionProbs :=
  { like := clamp01 e.like
    reply := clamp01 e.reply
    repost := clamp01 e.repost
    quote := clamp01 e.quote
    click := clamp01 e.click
    profile_click := clamp01 e.profile_click
    video_view := clamp01 e.video_view
    photo_expand := clamp01 e.photo_expand
    share := clamp01 e.share
    share_dm := clamp01 e.share_dm
    share_link := clamp01 e.share_link
    dwell := clamp01 e.dwell
    follow_author := clamp01 e.follow_author
    quoted_click := clamp01 e.quoted_click
    not_interested := clamp01 e.not_interested
    block := clamp01 e.block
    mute := clamp01 e.mute
    report := clamp01 e.report
    dwell_time := e.dwell_time }

/-- Same-author occurrence count among the first `k` candidates of a
batch. -/
def occBefore (cs : List ScoredCandidate) (k : ℕ) (a : String) : ℕ :=
  ((cs.take k).filter (fun d => d.author_id = a)).length

/-- Concrete stand-in for the abstract `exp` parameter, satisfying the
positivity and boundedness hypotheses the theorems assume of it. -/
def constHalf : ℚ → ℚ :=
  fun _ => 1 / 2

/-- Concrete stand-in for the abstract `log10` parameter. -/
def constZero : ℚ → ℚ :=
  fun _ => 0

/-- Concrete stand-in for the abstract hash-digest parameter. -/
def hashStub : List Char → String :=
  fun _ => "h"

/-- The all-zero action vector, used to build concrete candidates. -/
def zeroActions : ActionProbs :=
  { like := 0, reply := 0, repost := 0, quote := 0, click := 0
    profile_click := 0, video_view := 0, photo_expand := 0, share := 0
    share_dm := 0, share_link := 0, dwell := 0, follow_author := 0
    quoted_click := 0, not_interested := 0, block := 0, mute := 0
    report := 0, dwell_time := 0 }

attribute [ext] ActionProbs

section Lemmas

/-- The clamp always lands in the unit interval. -/
theorem clamp01_unit (x : ℚ) : unitIv (clamp01 x) :=
  ⟨le_min (le_max_right x 0) (by norm_num), min_le_right _ 1⟩

/-- The clamp is the identity on the unit interval. -/
theorem clamp01_eq_self {x : ℚ} (h0 : 0 ≤ x) (h1 : x ≤ 1) :
    clamp01 x = x := by
  unfold clamp01
  rw [max_eq_left h0, min_eq_left h1]

/-- With a positive `exp`, the logistic transform lands in the unit
interval. -/
theorem sigmoid_unit {E : ℚ → ℚ} (hE : ∀ y, 0 < E y) (x : ℚ) :
    unitIv (sigmoid E x) := by
  have hpos : (0 : ℚ) < 1 + E (-x) := by linarith [hE (-x)]
  unfold sigmoid
  constructor
  · exact le_of_lt (div_pos one_pos hpos)
  · rw [div_le_one hpos]
    linarith [hE (-x)]

/-- With a positive `exp` bounded by one on nonpositive arguments, the
Gaussian bump lands in the unit interval. -/
theorem gaussian_unit {E : ℚ → ℚ} (hE : ∀ y, 0 < E y)
    (hE1 : ∀ y, y ≤ 0 → E y ≤ 1) (x center width : ℚ) :
    unitIv (gaussian E x center width) := by
  unfold gaussian
  split_ifs with hw
  · exact ⟨le_refl 0, by norm_num⟩
  · set z := (x - center) / width with hz
    refine ⟨le_of_lt (hE (-z * z)), hE1 (-z * z) ?_⟩
    have := mul_self_nonneg z
    nlinarith

/-- Congruence for the offset-if over equal raw sums. -/
theorem ite_lt_zero_congr (A B off : ℚ) (h : A = B) :
    (if A < 0 then A + off else A) = (if B < 0 then B + off else B) := by
  rw [h]

/-- The dwell-time estimate is clamped to [0,60]. -/
theorem estimate_dwell_time_mem (c : ℕ) (m d : ℚ) :
    0 ≤ estimate_dwell_time c m d ∧ estimate_dwell_time c m d ≤ 60 := by
  unfold estimate_dwell_time
  exact ⟨le_min (le_max_right _ 0) (by norm_num), min_le_right _ 60⟩

/-- The hook signal is a clamp in both branches. -/
theorem hookSig_unit (i : SimulatorInput) (llm : Option LlmScore) :
    unitIv (hookSig i llm) := by
  cases llm with
  | none => exact clamp01_unit _
  | some s => exact clamp01_unit _

/-- The clarity signal is a clamp in both branches. -/
theorem claritySig_unit (E : ℚ → ℚ) (i : SimulatorInput)
    (llm : Option LlmScore) : unitIv (claritySig E i llm) := by
  cases llm with
  | none => exact clamp01_unit _
  | some s => exact clamp01_unit _

/-- The novelty signal is a clamp in both branches. -/
theorem noveltySig_unit (i : SimulatorInput) (llm : Option LlmScore) :
    unitIv (noveltySig i llm) := by
  cases llm with
  | none => exact clamp01_unit _
  | some s => exact clamp01_unit _

/-- The shareability signal is a clamp in both branches. -/
theorem shareabilitySig_unit (E : ℚ → ℚ) (i : SimulatorInput)
    (llm : Option LlmScore) : unitIv (shareabilitySig E i llm) := by
  cases llm with
  | none => exact clamp01_unit _
  | some s => exact clamp01_unit _

/-- The fixed media score lies in the unit interval. -/
theorem media_score_unit (m : MediaType) : unitIv m.media_score := by
  cases m <;> exact ⟨by norm_num [MediaType.media_score], by
    norm_num [MediaType.media_score]⟩

/-- The two-peak time score lies in the unit interval. -/
theorem time_of_day_score_unit {E : ℚ → ℚ} (hE : ∀ y, 0 < E y)
    (hE1 : ∀ y, y ≤ 0 → E y ≤ 1) (hour : ℕ) :
    unitIv (time_of_day_score E hour) := by
  unfold time_of_day_score
  have g1 := gaussian_unit hE hE1 ((min hour 23 : ℕ) : ℚ) 9 3.5
  have g2 := gaussian_unit hE hE1 ((min hour 23 : ℕ) : ℚ) 20 3.5
  exact ⟨le_max_of_le_left g1.1, max_le g1.2 g2.2⟩

/-- Every field of the signal snapshot lies in the unit interval. -/
theorem signalsOf_in_range {E : ℚ → ℚ} (L : ℚ → ℚ) (hE : ∀ y, 0 < E y)
    (hE1 : ∀ y, y ≤ 0 → E y ≤ 1) (i : SimulatorInput)
    (llm : Option LlmScore) : SignalsInRange (signalsOf E L i llm) :=
  ⟨gaussian_unit hE hE1 _ _ _, claritySig_unit E i llm, hookSig_unit i llm,
   noveltySig_unit i llm, clamp01_unit _, shareabilitySig_unit E i llm,
   clamp01_unit _, clamp01_unit _, clamp01_unit _, clamp01_unit _,
   media_score_unit i.media, time_of_day_score_unit hE hE1 i.hour_of_day⟩

/-- Every probability field of the heuristic action vector is a logistic
value in the unit interval, and the dwell-time field is clamped to
[0,60]. -/
theorem heuristicActions_in_range {E : ℚ → ℚ} (L : ℚ → ℚ)
    (hE : ∀ y, 0 < E y) (i : SimulatorInput) (llm : Option LlmScore) :
    ActionProbsInRange (heuristicActions E L i llm) :=
  ⟨sigmoid_unit hE _, sigmoid_unit hE _, sigmoid_unit hE _,
   sigmoid_unit hE _, sigmoid_unit hE _, sigmoid_unit hE _,
   sigmoid_unit hE _, sigmoid_unit hE _, sigmoid_unit hE _,
   sigmoid_unit hE _, sigmoid_unit hE _, sigmoid_unit hE _,
   sigmoid_unit hE _, sigmoid_unit hE _, sigmoid_unit hE _,
   sigmoid_unit hE _, sigmoid_unit hE _, sigmoid_unit hE _,
   estimate_dwell_time_mem _ _ _⟩

/-- The diversity walk preserves batch length. -/
theorem diversityGo_length (self : AuthorDiversityScorer)
    (counts : String → ℕ) (cs : List ScoredCandidate) :
    (diversityGo self counts cs).length = cs.length := by
  induction cs generalizing counts with
  | nil => rfl
  | cons c rest ih =>
      simp [diversityGo, ih]

/-- Index-wise description of the diversity walk: the candidate at
position `k` receives the multiplier of its running occurrence count,
namely the carried-in count plus the number of earlier same-author
candidates. -/
theorem diversityGo_get? (self : AuthorDiversityScorer)
    (counts : String → ℕ) (cs : List ScoredCandidate) :
    ∀ (k : ℕ) (c : ScoredCandidate), cs.get? k = some c →
      (diversityGo self counts cs).get? k =
        some { c with
          diversity_multiplier :=
            self.multiplier (counts c.author_id + occBefore cs k c.author_id)
          score := c.weighted_score *
            self.multiplier
              (counts c.author_id + occBefore cs k c.author_id) } := by
  induction cs generalizing counts with
  | nil => intro k c h; simp at h
  | cons c0 rest ih =>
      intro k c h
      cases k with
      | zero =>
          simp only [List.get?] at h
          cases h
          simp [diversityGo, occBefore]
      | succ k =>
          simp only [List.get?] at h
          have := ih (fun a =>
            if a = c0.author_id then counts c0.author_id + 1 else counts a)
            k c h
          simp only [diversityGo, List.get?]
          rw [this]
          have hocc : (if c.author_id = c0.author_id then
                counts c0.author_id + 1 else counts c.author_id)
              + occBefore rest k c.author_id
              = counts c.author_id + occBefore (c0 :: rest) (k + 1)
                  c.author_id := by
            unfold occBefore
            by_cases hc : c0.author_id = c.author_id
            · rw [if_pos hc.symm, hc]
              simp [List.take_succ_cons, List.filter_cons, hc]
              omega
            · rw [if_neg (fun he => hc he.symm)]
              simp [List.take_succ_cons, List.filter_cons, hc]
          rw [hocc]

/-- The diversity multiplier is strictly decreasing in the occurrence
count when the decay lies in (0,1) and the floor is below one. -/
theorem multiplier_strict_anti (self : AuthorDiversityScorer)
    (hd0 : 0 < self.config.decay) (hd1 : self.config.decay < 1)
    (hf1 : self.config.floor < 1) {m n : ℕ} (h : m < n) :
    self.multiplier n < self.multiplier m := by
  unfold AuthorDiversityScorer.multiplier
  have hpow : self.config.decay ^ n < self.config.decay ^ m :=
    pow_lt_pow_right_of_lt_one₀ hd0 hd1 h
  have hfpos : 0 < 1 - self.config.floor := by linarith
  nlinarith

/-- The diversity multiplier never drops below the floor when the decay
is positive and the floor at most one. -/
theorem multiplier_ge_floor (self : AuthorDiversityScorer)
    (hd0 : 0 < self.config.decay) (hf1 : self.config.floor ≤ 1)
    (occ : ℕ) : self.config.floor ≤ self.multiplier occ := by
  unfold AuthorDiversityScorer.multiplier
  have hpow : 0 ≤ self.config.decay ^ occ := pow_nonneg hd0.le occ
  nlinarith

/-- The multiplier at occurrence zero is exactly one. -/
theorem multiplier_zero (self : AuthorDiversityScorer) :
    self.multiplier 0 = 1 := by
  unfold AuthorDiversityScorer.multiplier
  ring

/-- A later same-author candidate has a strictly larger running
occurrence count. -/
theorem occBefore_strict (cs : List ScoredCandidate) {j k : ℕ}
    (hjk : j < k) {cj : ScoredCandidate} (hj : cs.get? j = some cj) :
    occBefore cs j cj.author_id < occBefore cs k cj.author_id := by
  have hj2 : cs[j]? = some cj := by
    rw [← List.get?_eq_getElem?]
    exact hj
  have hsplit : occBefore cs (j + 1) cj.author_id =
      occBefore cs j cj.author_id + 1 := by
    unfold occBefore
    rw [List.take_succ, hj2]
    simp [List.filter_append]
  have hmono : occBefore cs (j + 1) cj.author_id ≤
      occBefore cs k cj.author_id := by
    have hpre : cs.take (j + 1) <+: cs.take k :=
      List.take_isPrefix_take.2 (Or.inl (by omega))
    have hsub := hpre.sublist.filter
      (fun d => decide (d.author_id = cj.author_id))
    exact hsub.length_le
  omega

end Lemmas

/-- The action vector putting probability one on `block` and zero
everywhere else. -/
def blockOnly : ActionProbs :=
  { zeroActions with block := 1 }

/-- Two same-author candidates in descending weighted-score order. -/
def demoCand1 : ScoredCandidate :=
  { post_id := "p1", author_id := "a", is_oon := false
    video_duration := none, phoenix_scores := zeroActions
    weighted_score := 2, diversity_multiplier := 1, oon_multiplier := 1
    score := 2 }

/-- Second candidate of the demonstration batch, same author. -/
def demoCand2 : ScoredCandidate :=
  { demoCand1 with post_id := "p2", weighted_score := 1, score := 1 }

/-- C8: tier assignment is a half-open, lower-inclusive bucketing of the
composite score — below 35 is Low, then Moderate, High, Very High at 55
and 75, and Breakout from 90 on; in particular 34.999 maps to Low, 35 to
Moderate, 89.999 to Very High and 90 to Breakout. -/
theorem claim_c8_tier_thresholds :
    (∀ s : ℚ,
      (tier_from_score s = .low ↔ s < 35) ∧
      (tier_from_score s = .moderate ↔ 35 ≤ s ∧ s < 55) ∧
      (tier_from_score s = .high ↔ 55 ≤ s ∧ s < 75) ∧
      (tier_from_score s = .veryHigh ↔ 75 ≤ s ∧ s < 90) ∧
      (tier_from_score s = .breakout ↔ 90 ≤ s)) ∧
    tier_from_score 34.999 = .low ∧
    tier_from_score 35 = .moderate ∧
    tier_from_score 89.999 = .veryHigh ∧
    tier_from_score 90 = .breakout := by
  refine ⟨?_, by norm_num [tier_from_score], by norm_num [tier_from_score],
    by norm_num [tier_from_score], by norm_num [tier_from_score]⟩
  intro s
  unfold tier_from_score
  split_ifs with h1 h2 h3 h4 <;>
    refine ⟨?_, ?_, ?_, ?_, ?_⟩ <;>
    constructor <;>
    intro h <;>
    first
      | rfl
      | linarith
      | exact ⟨by linarith, by linarith⟩
      | simp at h
      | (exfalso; rcases h with ⟨ha, hb⟩; linarith)
      | (exfalso; linarith)

/-- C2: the weighted score equals the sum of probability times weight
over all weighted actions, with the video-view term included exactly when
a duration is present and at least the threshold; when the raw sum is
negative the offset is added exactly once, the result may stay negative,
and it is never clamped to zero (witnessed by the block-only vector under
default weights and offset one, which scores minus four). -/
theorem claim_c2_weighted_score :
    (∀ (self : WeightedScorer) (a : ActionProbs) (dur : Option ℚ),
      WeightedScorer.score self a dur =
        if weightedBaseSum self.weights a
            + vqvTerm self.vqv_duration_threshold dur a self.weights < 0 then
          weightedBaseSum self.weights a
            + vqvTerm self.vqv_duration_threshold dur a self.weights
            + self.score_offset
        else
          weightedBaseSum self.weights a
            + vqvTerm self.vqv_duration_threshold dur a self.weights) ∧
    WeightedScorer.score ⟨defaultWeights, 6, 1⟩ blockOnly none = -4 ∧
    WeightedScorer.score ⟨defaultWeights, 6, 1⟩ blockOnly none < 0 := by
  have hconc : WeightedScorer.score ⟨defaultWeights, 6, 1⟩ blockOnly none
      = -4 := by
    norm_num [WeightedScorer.score, WeightedScorer.offset_score, blockOnly,
      zeroActions, defaultWeights]
  refine ⟨?_, hconc, by rw [hconc]; norm_num⟩
  intro self a dur
  unfold WeightedScorer.score WeightedScorer.offset_score weightedBaseSum
    vqvTerm
  cases dur with
  | none =>
      simp only [List.map_cons, List.map_nil, List.sum_cons, List.sum_nil]
      apply ite_lt_zero_congr
      ring
  | some d =>
      simp only [List.map_cons, List.map_nil, List.sum_cons, List.sum_nil]
      apply ite_lt_zero_congr
      split_ifs with h <;> ring

/-- C4: the out-of-network stage leaves an in-network candidate's score
and all other fields unchanged while setting its multiplier to one, and
multiplies an out-of-network candidate's score by exactly the configured
multiplier, recording it, with all other fields unchanged. -/
theorem claim_c4_oon_stage :
    ∀ (self : OonScorer) (c : ScoredCandidate) (b : Bool),
      (self.score c b).score =
          c.score * (if b then self.config.multiplier else 1) ∧
      (self.score c b).oon_multiplier =
          (if b then self.config.multiplier else 1) ∧
      (self.score c b).weighted_score = c.weighted_score ∧
      (self.score c b).diversity_multiplier = c.diversity_multiplier ∧
      (self.score c b).post_id = c.post_id ∧
      (self.score c b).author_id = c.author_id ∧
      (self.score c b).is_oon = c.is_oon ∧
      (self.score c b).video_duration = c.video_duration ∧
      (self.score c b).phoenix_scores = c.phoenix_scores := by
  intro self c b
  cases b <;> simp [OonScorer.score]

/-- C10: a video post with no supplied duration gets the default duration
of 15 seconds, a supplied duration is floored at zero, and with the
default threshold of 6 the video-view term is included in the weighted
score for such a defaulted video post. -/
theorem claim_c10_video_default (i : SimulatorInput)
    (hv : i.media = .video) (hd : i.video_duration_seconds = none) :
    derive_video_duration i = some 15 ∧
    defaultWeighted.vqv_duration_threshold = 6 ∧
    (∀ (a : ActionProbs) (w : ActionWeights),
      vqvTerm defaultWeighted.vqv_duration_threshold
        (derive_video_duration i) a w = a.video_view * w.vqv) ∧
    (∀ d : ℚ, derive_video_duration
      { i with video_duration_seconds := some d } = some (max d 0)) := by
  have h1 : derive_video_duration i = some 15 := by
    unfold derive_video_duration
    rw [hd, hv]
    simp
  refine ⟨h1, rfl, ?_, ?_⟩
  · intro a w
    rw [h1]
    have h6 : defaultWeighted.vqv_duration_threshold ≤ (15 : ℚ) := by
      norm_num [defaultWeighted]
    simp [vqvTerm, h6]
  · intro d
    unfold derive_video_duration
    simp

/-- Witness for C10 at a concrete video input with no duration. -/
theorem claim_c10_video_default_witness :
    derive_video_duration { defaultSimulatorInput with media := .video }
        = some 15 ∧
    defaultWeighted.vqv_duration_threshold = 6 :=
  ⟨(claim_c10_video_default { defaultSimulatorInput with media := .video }
      rfl rfl).1,
   (claim_c10_video_default { defaultSimulatorInput with media := .video }
      rfl rfl).2.1⟩

/-- C6 counterexample: a NaN sentiment does not collapse to 0 — Rust's
NaN-ignoring `max`/`min` turn it into -1.0 before use. -/
theorem claim_c6_counterexample :
    sentimentSanitize .nan = .val (-1) ∧ Flt.val (-1) ≠ Flt.val 0 :=
  ⟨rfl, by decide⟩

/-- C6 amended: the computation is total and clamping, never rejecting —
NaN collapses to 0 in every clamp01-guarded field (context signals and
the engagement-rate path), while a NaN sentiment collapses to -1.0, not
0, and a finite sentiment is clamped to [-1,1]. -/
theorem claim_c6_nan_handling :
    clamp01F .nan = .val 0 ∧
    engScoreF .nan = .val 0 ∧
    (∀ x : Flt, ∃ q : ℚ, clamp01F x = .val q ∧ 0 ≤ q ∧ q ≤ 1) ∧
    sentimentSanitize .nan = .val (-1) ∧
    (∀ q : ℚ, sentimentSanitize (.val q) = .val (min (max q (-1)) 1)) := by
  refine ⟨rfl, rfl, ?_, rfl, fun q => rfl⟩
  intro x
  cases x with
  | nan => exact ⟨0, rfl, le_refl 0, by norm_num⟩
  | val v =>
      exact ⟨min (max v 0) 1, rfl, (clamp01_unit v).1, (clamp01_unit v).2⟩

/-- C3 counterexample: with decay 1/2 in (0,1) and floor 1, which the
claim's stated range [0,1] allows, both candidates of a same-author
descending batch get diversity multiplier exactly 1, so the one walked
second is not strictly smaller. -/
theorem claim_c3_counterexample :
    ((0 : ℚ) < 1 / 2 ∧ (1 : ℚ) / 2 < 1 ∧ (0 : ℚ) ≤ 1 ∧ (1 : ℚ) ≤ 1) ∧
    ((AuthorDiversityScorer.score ⟨⟨1 / 2, 1⟩⟩
        [demoCand1, demoCand2]).getD 0 demoCand1).diversity_multiplier
      = 1 ∧
    ((AuthorDiversityScorer.score ⟨⟨1 / 2, 1⟩⟩
        [demoCand1, demoCand2]).getD 1 demoCand1).diversity_multiplier
      = 1 ∧
    ¬ (((AuthorDiversityScorer.score ⟨⟨1 / 2, 1⟩⟩
          [demoCand1, demoCand2]).getD 1 demoCand1).diversity_multiplier
        < ((AuthorDiversityScorer.score ⟨⟨1 / 2, 1⟩⟩
          [demoCand1, demoCand2]).getD 0 demoCand1).diversity_multiplier) := by
  have heval : ∀ n : ℕ, ((AuthorDiversityScorer.score ⟨⟨1 / 2, 1⟩⟩
      [demoCand1, demoCand2]).getD n demoCand1).diversity_multiplier = 1 := by
    intro n
    have : AuthorDiversityScorer.score ⟨⟨1 / 2, 1⟩⟩ [demoCand1, demoCand2]
        = [{ demoCand1 with diversity_multiplier := 1, score := 2 },
           { demoCand2 with diversity_multiplier := 1, score := 1 }] := by
      norm_num [AuthorDiversityScorer.score, diversityGo,
        AuthorDiversityScorer.multiplier, demoCand1, demoCand2]
    rw [this]
    match n with
    | 0 => rfl
    | 1 => rfl
    | (n + 2) => rfl
  refine ⟨⟨by norm_num, by norm_num, by norm_num, by norm_num⟩,
    heval 0, heval 1, ?_⟩
  rw [heval 0, heval 1]
  exact lt_irrefl 1

/-- C3 amended (floor restricted to [0,1)): the diversity stage walks the
batch in order with a per-author occurrence counter starting at zero,
gives position `k` the multiplier `(1-floor)·decay^occ + floor` of its
running occurrence count and the score `weighted_score · multiplier`;
every multiplier is at least the floor, a first occurrence gets exactly
one, and of two same-author candidates the one walked second has a
strictly smaller multiplier. -/
theorem claim_c3_diversity_walk (self : AuthorDiversityScorer)
    (cs : List ScoredCandidate)
    (hd0 : 0 < self.config.decay) (hd1 : self.config.decay < 1)
    (hf0 : 0 ≤ self.config.floor) (hf1 : self.config.floor < 1) :
    (∀ (k : ℕ) (c : ScoredCandidate), cs.get? k = some c →
      (self.score cs).get? k = some { c with
        diversity_multiplier :=
          self.multiplier (occBefore cs k c.author_id)
        score :=
          c.weighted_score * self.multiplier (occBefore cs k c.author_id) }) ∧
    (∀ occ : ℕ, self.config.floor ≤ self.multiplier occ) ∧
    self.multiplier 0 = 1 ∧
    (∀ (j k : ℕ) (dj dk : ScoredCandidate), j < k →
      (self.score cs).get? j = some dj →
      (self.score cs).get? k = some dk →
      dj.author_id = dk.author_id →
      dk.diversity_multiplier < dj.diversity_multiplier) := by
  have hform : ∀ (k : ℕ) (c : ScoredCandidate), cs.get? k = some c →
      (self.score cs).get? k = some { c with
        diversity_multiplier :=
          self.multiplier (occBefore cs k c.author_id)
        score :=
          c.weighted_score
            * self.multiplier (occBefore cs k c.author_id) } := by
    intro k c h
    have := diversityGo_get? self (fun _ => 0) cs k c h
    simpa [AuthorDiversityScorer.score] using this
  refine ⟨hform, fun occ => multiplier_ge_floor self hd0 hf1.le occ,
    multiplier_zero self, ?_⟩
  intro j k dj dk hjk hdj hdk hauth
  have hjlen : j < cs.length := by
    obtain ⟨h1, -⟩ := List.get?_eq_some.1 hdj
    rwa [AuthorDiversityScorer.score, diversityGo_length] at h1
  have hklen : k < cs.length := by
    obtain ⟨h1, -⟩ := List.get?_eq_some.1 hdk
    rwa [AuthorDiversityScorer.score, diversityGo_length] at h1
  obtain ⟨cj, hcj⟩ : ∃ cj, cs.get? j = some cj :=
    ⟨cs.get ⟨j, hjlen⟩, List.get?_eq_get hjlen⟩
  obtain ⟨ck, hck⟩ : ∃ ck, cs.get? k = some ck :=
    ⟨cs.get ⟨k, hklen⟩, List.get?_eq_get hklen⟩
  have hdj2 := hform j cj hcj
  have hdk2 := hform k ck hck
  rw [hdj] at hdj2
  rw [hdk] at hdk2
  have hdj3 := Option.some.inj hdj2
  have hdk3 := Option.some.inj hdk2
  have hauthj : dj.author_id = cj.author_id := by rw [hdj3]
  have hauthk : dk.author_id = ck.author_id := by rw [hdk3]
  have hmultj : dj.diversity_multiplier =
      self.multiplier (occBefore cs j cj.author_id) := by rw [hdj3]
  have hmultk : dk.diversity_multiplier =
      self.multiplier (occBefore cs k ck.author_id) := by rw [hdk3]
  have hsame : ck.author_id = cj.author_id := by
    rw [← hauthj, ← hauthk, hauth]
  rw [hmultj, hmultk, hsame]
  exact multiplier_strict_anti self hd0 hd1 hf1
    (occBefore_strict cs hjk hcj)

/-- C1 counterexample: in Phoenix mode the external vector is served
unclamped, so an external like-probability of 2 appears verbatim in the
output and violates the unit-interval bound. -/
theorem claim_c1_counterexample :
    (simulate_with_mode constHalf constZero hashStub defaultSimulatorInput
      none none .phoenix (some { zeroActions with like := 2 })
      defaultScoringConfig).actions.like = 2 ∧
    ¬ ((simulate_with_mode constHalf constZero hashStub
      defaultSimulatorInput none none .phoenix
      (some { zeroActions with like := 2 })
      defaultScoringConfig).actions.like ≤ 1) := by
  have h : (simulate_with_mode constHalf constZero hashStub
      defaultSimulatorInput none none .phoenix
      (some { zeroActions with like := 2 })
      defaultScoringConfig).actions = { zeroActions with like := 2 } := rfl
  rw [h]
  norm_num

/-- C1 amended (restricted to Heuristic mode or an absent external
vector, where the served vector is the heuristic one): every served
action probability is in [0,1] and the dwell-time estimate in [0,60],
and every field of the signal snapshot is in [0,1] — the snapshot has no
sentiment field, so the claim's sentiment clause has nothing to
constrain. -/
theorem claim_c1_output_ranges (E L : ℚ → ℚ) (H : List Char → String)
    (i : SimulatorInput) (llm : Option LlmScore) (tr : Option LlmTrace)
    (mode : ScoringMode) (pa : Option ActionProbs) (cfg : ScoringConfig)
    (hE : ∀ y, 0 < E y) (hE1 : ∀ y, y ≤ 0 → E y ≤ 1)
    (hmode : mode = ScoringMode.heuristic ∨ pa = none) :
    SignalsInRange (simulate_with_mode E L H i llm tr mode pa cfg).signals ∧
    ActionProbsInRange
      (simulate_with_mode E L H i llm tr mode pa cfg).actions := by
  have hsig : (simulate_with_mode E L H i llm tr mode pa cfg).signals
      = signalsOf E L i llm := rfl
  have hact : (simulate_with_mode E L H i llm tr mode pa cfg).actions
      = resolveActions mode pa (heuristicActions E L i llm) := rfl
  rw [hsig, hact]
  refine ⟨signalsOf_in_range L hE hE1 i llm, ?_⟩
  have hres : resolveActions mode pa (heuristicActions E L i llm)
      = heuristicActions E L i llm := by
    rcases hmode with h | h
    · subst h; rfl
    · subst h
      cases mode with
      | heuristic => rfl
      | phoenix => rfl
      | hybrid w => rfl
  rw [hres]
  exact heuristicActions_in_range L hE i llm

/-- Witness for C1 at a concrete heuristic run. -/
theorem claim_c1_output_ranges_witness :
    SignalsInRange (simulate_with_mode constHalf constZero hashStub
      defaultSimulatorInput none none .heuristic none
      defaultScoringConfig).signals ∧
    ActionProbsInRange (simulate_with_mode constHalf constZero hashStub
      defaultSimulatorInput none none .heuristic none
      defaultScoringConfig).actions :=
  claim_c1_output_ranges constHalf constZero hashStub
    defaultSimulatorInput none none .heuristic none defaultScoringConfig
    (fun y => by norm_num [constHalf])
    (fun y hy => by norm_num [constHalf]) (Or.inl rfl)

/-- Zero-weight blend of a unit-interval vector returns it unchanged. -/
theorem blend_actions_zero (h e : ActionProbs)
    (hb : ActionProbsInRange h) : blend_actions h e 0 = h := by
  have hp : ∀ a b : ℚ, 0 ≤ a → a ≤ 1 →
      clamp01 (a * (1 - 0) + b * 0) = a := by
    intro a b h0 h1
    rw [show a * (1 - 0) + b * 0 = a by ring]
    exact clamp01_eq_self h0 h1
  obtain ⟨b1, b2, b3, b4, b5, b6, b7, b8, b9, b10, b11, b12, b13, b14,
    b15, b16, b17, b18, b19⟩ := hb
  ext
  · exact hp _ _ b1.1 b1.2
  · exact hp _ _ b2.1 b2.2
  · exact hp _ _ b3.1 b3.2
  · exact hp _ _ b4.1 b4.2
  · exact hp _ _ b5.1 b5.2
  · exact hp _ _ b6.1 b6.2
  · exact hp _ _ b7.1 b7.2
  · exact hp _ _ b8.1 b8.2
  · exact hp _ _ b9.1 b9.2
  · exact hp _ _ b10.1 b10.2
  · exact hp _ _ b11.1 b11.2
  · exact hp _ _ b12.1 b12.2
  · exact hp _ _ b13.1 b13.2
  · exact hp _ _ b14.1 b14.2
  · exact hp _ _ b15.1 b15.2
  · exact hp _ _ b16.1 b16.2
  · exact hp _ _ b17.1 b17.2
  · exact hp _ _ b18.1 b18.2
  · exact (by ring :
      h.dwell_time * (1 - 0) + e.dwell_time * 0 = h.dwell_time)

/-- Unit-weight blend clamps the overlay per field and passes its
dwell-time through. -/
theorem blend_actions_one (h e : ActionProbs) :
    blend_actions h e 1 = clampExternal e := by
  have hp : ∀ a b : ℚ, clamp01 (a * (1 - 1) + b * 1) = clamp01 b := by
    intro a b
    exact congrArg clamp01 (by ring)
  ext
  · exact hp h.like e.like
  · exact hp h.reply e.reply
  · exact hp h.repost e.repost
  · exact hp h.quote e.quote
  · exact hp h.click e.click
  · exact hp h.profile_click e.profile_click
  · exact hp h.video_view e.video_view
  · exact hp h.photo_expand e.photo_expand
  · exact hp h.share e.share
  · exact hp h.share_dm e.share_dm
  · exact hp h.share_link e.share_link
  · exact hp h.dwell e.dwell
  · exact hp h.follow_author e.follow_author
  · exact hp h.quoted_click e.quoted_click
  · exact hp h.not_interested e.not_interested
  · exact hp h.block e.block
  · exact hp h.mute e.mute
  · exact hp h.report e.report
  · exact (by ring :
      h.dwell_time * (1 - 1) + e.dwell_time * 1 = e.dwell_time)

/-- The post-selection half of the engine uses the scoring mode and the
external vector only for the two output fields that echo them. -/
theorem simulateCore_mode_congr (E L : ℚ → ℚ) (H : List Char → String)
    (i : SimulatorInput) (llm : Option LlmScore) (tr : Option LlmTrace)
    (m1 m2 : ScoringMode) (pa1 pa2 : Option ActionProbs)
    (cfg : ScoringConfig) (acts : ActionProbs) :
    simulateCore E L H i llm tr m1 pa1 cfg acts =
      { simulateCore E L H i llm tr m2 pa2 cfg acts with
          scoring_mode := m1, phoenix_actions := pa1 } := rfl

/-- C5: with an external vector present, Hybrid at weight 0 is
numerically identical to Heuristic (all fields except the echoed mode
label agree), Hybrid at weight 1 is numerically identical to serving the
per-field-clamped external vector, and the dwell-time field is blended by
plain linear interpolation with no clamp. -/
theorem claim_c5_hybrid_endpoints (E L : ℚ → ℚ) (H : List Char → String)
    (i : SimulatorInput) (llm : Option LlmScore) (tr : Option LlmTrace)
    (e : ActionProbs) (cfg : ScoringConfig) (hE : ∀ y, 0 < E y) :
    simulate_with_mode E L H i llm tr (.hybrid 0) (some e) cfg =
      { simulate_with_mode E L H i llm tr .heuristic (some e) cfg with
          scoring_mode := .hybrid 0 } ∧
    simulate_with_mode E L H i llm tr (.hybrid 1) (some e) cfg =
      { simulate_with_mode E L H i llm tr .phoenix
          (some (clampExternal e)) cfg with
          scoring_mode := .hybrid 1, phoenix_actions := some e } ∧
    (∀ (h2 e2 : ActionProbs) (w : ℚ),
      (blend_actions h2 e2 w).dwell_time =
        h2.dwell_time * (1 - w) + e2.dwell_time * w) := by
  refine ⟨?_, ?_, fun h2 e2 w => rfl⟩
  · have hres : resolveActions (.hybrid 0) (some e)
        (heuristicActions E L i llm)
        = resolveActions .heuristic (some e)
            (heuristicActions E L i llm) :=
      blend_actions_zero _ e (heuristicActions_in_range L hE i llm)
    calc simulate_with_mode E L H i llm tr (.hybrid 0) (some e) cfg
        = simulateCore E L H i llm tr (.hybrid 0) (some e) cfg
            (resolveActions (.hybrid 0) (some e)
              (heuristicActions E L i llm)) := rfl
      _ = simulateCore E L H i llm tr (.hybrid 0) (some e) cfg
            (resolveActions .heuristic (some e)
              (heuristicActions E L i llm)) := by rw [hres]
      _ = { simulateCore E L H i llm tr .heuristic (some e) cfg
              (resolveActions .heuristic (some e)
                (heuristicActions E L i llm)) with
              scoring_mode := .hybrid 0, phoenix_actions := some e } :=
        simulateCore_mode_congr E L H i llm tr (.hybrid 0) .heuristic
          (some e) (some e) cfg _
      _ = { simulate_with_mode E L H i llm tr .heuristic (some e) cfg with
              scoring_mode := .hybrid 0 } := rfl
  · have hres : resolveActions (.hybrid 1) (some e)
        (heuristicActions E L i llm)
        = resolveActions .phoenix (some (clampExternal e))
            (heuristicActions E L i llm) :=
      blend_actions_one _ e
    calc simulate_with_mode E L H i llm tr (.hybrid 1) (some e) cfg
        = simulateCore E L H i llm tr (.hybrid 1) (some e) cfg
            (resolveActions (.hybrid 1) (some e)
              (heuristicActions E L i llm)) := rfl
      _ = simulateCore E L H i llm tr (.hybrid 1) (some e) cfg
            (resolveActions .phoenix (some (clampExternal e))
              (heuristicActions E L i llm)) := by rw [hres]
      _ = { simulateCore E L H i llm tr .phoenix (some (clampExternal e))
              cfg (resolveActions .phoenix (some (clampExternal e))
                (heuristicActions E L i llm)) with
              scoring_mode := .hybrid 1, phoenix_actions := some e } :=
        simulateCore_mode_congr E L H i llm tr (.hybrid 1) .phoenix
          (some e) (some (clampExternal e)) cfg _
      _ = { simulate_with_mode E L H i llm tr .phoenix
              (some (clampExternal e)) cfg with
              scoring_mode := .hybrid 1, phoenix_actions := some e } := rfl

/-- Witness for C5 at a concrete blend. -/
theorem claim_c5_hybrid_endpoints_witness :
    (blend_actions zeroActions zeroActions 0).dwell_time =
      zeroActions.dwell_time * (1 - 0) + zeroActions.dwell_time * 0 :=
  (claim_c5_hybrid_endpoints constHalf constZero hashStub
    defaultSimulatorInput none none zeroActions defaultScoringConfig
    (fun y => by norm_num [constHalf])).2.2 zeroActions zeroActions 0

/-- The logistic transform under the constant-half exponential stand-in
is two thirds whatever its argument. -/
theorem sigmoid_constHalf (x : ℚ) : sigmoid constHalf x = 2 / 3 := by
  norm_num [sigmoid, constHalf]

/-- The Gaussian bump under the constant-half stand-in. -/
theorem gaussian_constHalf (x c w : ℚ) :
    gaussian constHalf x c w = if w ≤ 0 then 0 else 1 / 2 := by
  simp [gaussian, constHalf]

/-- The guarded logarithm under the constant-zero stand-in vanishes. -/
theorem log10_safe_constZero (v : ℚ) : log10_safe constZero v = 0 := by
  simp [log10_safe, constZero]

/-- The three-stage pipeline on a single in-network candidate: stage one
writes the weighted score, the diversity walk sees occurrence zero and
multiplier one, and the out-of-network stage leaves it untouched. -/
theorem pipeline_singleton_in (p : ScoringPipeline) (c : ScoredCandidate)
    (hoon : c.is_oon = false) :
    p.score [c] = [{ c with
      weighted_score := p.weighted_scorer.score c.phoenix_scores
        c.video_duration
      score := p.weighted_scorer.score c.phoenix_scores c.video_duration
      diversity_multiplier := 1
      oon_multiplier := 1 }] := by
  unfold ScoringPipeline.score
  simp [sortDesc, insertDesc, AuthorDiversityScorer.score, diversityGo,
    AuthorDiversityScorer.multiplier, OonScorer.score, hoon]

/-- All-zero text features, as produced on empty text. -/
def zeroFeatures : TextFeatures :=
  { char_count := 0, word_count := 0, hashtags := 0, mentions := 0
    urls := 0, questions := 0, exclamations := 0, emoji_count := 0
    uppercase_frac := 0, avg_word_len := 0, starts_with_number := false
    has_hook_word := false, cta_share := false, cta_reply := false }

attribute [ext] Signals

/-- Empty text yields the all-zero feature record. -/
theorem featuresOf_default : featuresOf defaultSimulatorInput
    = zeroFeatures := by
  decide

/-- The heuristic action vector of the default input under the
constant-half stand-in: every logistic value is two thirds and the
dwell-time estimate is 49/6 seconds. -/
def actsDefault : ActionProbs :=
  { like := 2 / 3, reply := 2 / 3, repost := 2 / 3, quote := 2 / 3
    click := 2 / 3, profile_click := 2 / 3, video_view := 2 / 3
    photo_expand := 2 / 3, share := 2 / 3, share_dm := 2 / 3
    share_link := 2 / 3, dwell := 2 / 3, follow_author := 2 / 3
    quoted_click := 2 / 3, not_interested := 2 / 3, block := 2 / 3
    mute := 2 / 3, report := 2 / 3, dwell_time := 49 / 6 }

/-- Concrete heuristic action vector at the default input. -/
theorem heuristicActions_default :
    heuristicActions constHalf constZero defaultSimulatorInput none
      = actsDefault := by
  ext <;> simp only [heuristicActions, actsDefault] <;>
    first
      | exact sigmoid_constHalf _
      | (simp only [featuresOf_default, zeroFeatures]
         norm_num [estimate_dwell_time, sigmoid_constHalf,
           defaultSimulatorInput, MediaType.media_score, min_def, max_def])

/-- The signal snapshot of the default input under the stand-ins. -/
def sigsDefault : Signals :=
  { length_score := 1 / 2, clarity := 3 / 5, hook := 0, novelty := 1 / 2
    timeliness := 1 / 2, shareability := 27 / 100
    content_quality := 21 / 50, author_quality := 47 / 300
    audience_alignment := 23 / 50, negative_risk := 17 / 100
    media_score := 0, time_score := 1 / 2 }

/-- Concrete signal snapshot at the default input. -/
theorem signalsOf_default :
    signalsOf constHalf constZero defaultSimulatorInput none
      = sigsDefault := by
  have hlen : lengthScore constHalf defaultSimulatorInput = 1 / 2 := by
    simp only [lengthScore, featuresOf_default, zeroFeatures]
    norm_num [gaussian_constHalf]
  have hread : readabilityScore constHalf defaultSimulatorInput
      = 1 / 2 := by
    simp only [readabilityScore, featuresOf_default, zeroFeatures]
    norm_num [gaussian_constHalf]
  have hspam : spamminess defaultSimulatorInput = 0 := by
    simp only [spamminess, linkFlag, hasLink, featuresOf_default,
      zeroFeatures]
    norm_num [defaultSimulatorInput, bool_to_f64, clamp01, min_def,
      max_def]
  have hhook : hookSig defaultSimulatorInput none = 0 := by
    simp only [hookSig, baseHook, featuresOf_default, zeroFeatures]
    norm_num [bool_to_f64, clamp01, min_def, max_def]
  have hclar : claritySig constHalf defaultSimulatorInput none
      = 3 / 5 := by
    simp only [claritySig, baseClarity, hlen, hread, hspam]
    norm_num [clamp01, min_def, max_def]
  have hnov : noveltySig defaultSimulatorInput none = 1 / 2 := by
    norm_num [noveltySig, defaultSimulatorInput, clamp01, min_def, max_def]
  have htim : timelinessSig defaultSimulatorInput = 1 / 2 := by
    norm_num [timelinessSig, defaultSimulatorInput, clamp01, min_def,
      max_def]
  have hshare : shareabilitySig constHalf defaultSimulatorInput none
      = 27 / 100 := by
    simp only [shareabilitySig, hhook, hnov, hclar, featuresOf_default,
      zeroFeatures]
    norm_num [bool_to_f64, clamp01, min_def, max_def]
  have hcq : contentQuality constHalf defaultSimulatorInput none
      = 21 / 50 := by
    simp only [contentQuality, hclar, hhook, hnov, htim]
    norm_num [clamp01, min_def, max_def]
  have hratio : ratioScore constZero defaultSimulatorInput = 0 := by
    norm_num [ratioScore, log10_safe_constZero, clamp01, min_def, max_def]
  have haq : authorQuality constHalf constZero defaultSimulatorInput
      = 47 / 300 := by
    simp only [authorQuality, authorStrength, followersLog, hratio]
    norm_num [log10_safe_constZero, ageScore, engScore, cadenceScore,
      gaussian_constHalf, verifiedBonus, defaultSimulatorInput, clamp01,
      min_def, max_def]
  have halign : audienceAlignment constZero defaultSimulatorInput
      = 23 / 50 := by
    simp only [audienceAlignment, hratio]
    norm_num [audienceFitSig, topicSaturationSig, defaultSimulatorInput,
      clamp01, min_def, max_def]
  have hnr : negativeRisk defaultSimulatorInput none = 17 / 100 := by
    simp only [negativeRisk, hspam, featuresOf_default, zeroFeatures]
    norm_num [controversySig, sentimentSig, topicSaturationSig,
      defaultSimulatorInput, clamp01, min_def, max_def]
  have htime : time_of_day_score constHalf
      defaultSimulatorInput.hour_of_day = 1 / 2 := by
    norm_num [time_of_day_score, gaussian_constHalf,
      defaultSimulatorInput, min_def, max_def]
  ext <;>
    simp only [signalsOf, sigsDefault] <;>
    first
      | exact hlen
      | exact hclar
      | exact hhook
      | exact hnov
      | exact htim
      | exact hshare
      | exact hcq
      | exact haq
      | exact halign
      | exact hnr
      | exact htime
      | simp [defaultSimulatorInput, MediaType.media_score]

/-- Concrete weighted score of the default input's action vector. -/
theorem weighted_default :
    WeightedScorer.score ⟨defaultWeights, 6, 1⟩ actsDefault none
      = -71 / 60 := by
  norm_num [WeightedScorer.score, WeightedScorer.offset_score, actsDefault,
    defaultWeights]

/-- C9: text feature extraction is total with no failure mode — empty
text yields the all-zero feature record (counts zero, ratios zero, flags
false) — and on the default input with empty text the engine still
produces a complete output: its tier evaluates to High and its
suggestions list has exactly five entries. -/
theorem claim_c9_empty_text :
    extract_text_features [] = zeroFeatures ∧
    (simulate_with_mode constHalf constZero hashStub defaultSimulatorInput
      none none .heuristic none defaultScoringConfig).tier = .high ∧
    (simulate_with_mode constHalf constZero hashStub defaultSimulatorInput
      none none .heuristic none
      defaultScoringConfig).suggestions.length = 5 := by
  refine ⟨by decide, ?_, ?_⟩
  · obtain ⟨raw, htier⟩ : ∃ raw,
        (simulate_with_mode constHalf constZero hashStub
          defaultSimulatorInput none none .heuristic none
          defaultScoringConfig).tier
          = tier_from_score (100 * sigmoid constHalf raw) := ⟨_, rfl⟩
    rw [htier, sigmoid_constHalf]
    norm_num [tier_from_score]
  · obtain ⟨pid, aid, hwp⟩ : ∃ pid aid,
        (simulate_with_mode constHalf constZero hashStub
          defaultSimulatorInput none none .heuristic none
          defaultScoringConfig).weighted_score =
          ((ScoringPipeline.score (build_pipeline defaultScoringConfig)
            [ScoredCandidate.new pid aid defaultSimulatorInput.is_oon
              (derive_video_duration defaultSimulatorInput)
              (heuristicActions constHalf constZero defaultSimulatorInput
                none)]).getLast?.getD
            (ScoredCandidate.new ("post") ("author") false none
              (heuristicActions constHalf constZero defaultSimulatorInput
                none))).weighted_score := ⟨_, _, rfl⟩
    have hpipe := pipeline_singleton_in
      (build_pipeline defaultScoringConfig)
      (ScoredCandidate.new pid aid defaultSimulatorInput.is_oon
        (derive_video_duration defaultSimulatorInput)
        (heuristicActions constHalf constZero defaultSimulatorInput none))
      rfl
    rw [hpipe] at hwp
    simp only [List.getLast?_singleton, Option.getD_some,
      ScoredCandidate.new] at hwp
    rw [heuristicActions_default] at hwp
    have hbp : (build_pipeline defaultScoringConfig).weighted_scorer
        = ⟨defaultWeights, 6, 1⟩ := rfl
    have hdvd : derive_video_duration defaultSimulatorInput = none := rfl
    rw [hbp, hdvd, weighted_default] at hwp
    obtain ⟨w, hsugg, hww⟩ : ∃ w,
        (simulate_with_mode constHalf constZero hashStub
          defaultSimulatorInput none none .heuristic none
          defaultScoringConfig).suggestions
          = build_suggestions defaultSimulatorInput
              (featuresOf defaultSimulatorInput)
              (signalsOf constHalf constZero defaultSimulatorInput none)
              (heuristicActions constHalf constZero defaultSimulatorInput
                none) w ∧
        (simulate_with_mode constHalf constZero hashStub
          defaultSimulatorInput none none .heuristic none
          defaultScoringConfig).weighted_score = w := ⟨_, rfl, rfl⟩
    have hwv : w = -71 / 60 := hww.symm.trans hwp
    rw [featuresOf_default, signalsOf_default, heuristicActions_default,
      hwv] at hsugg
    rw [hsugg]
    norm_num [build_suggestions, zeroFeatures, sigsDefault, actsDefault,
      defaultSimulatorInput]

/-- The suggestion-heavy input of the C7 counterexample: a short spammy
hashtag/mention text with a link override, saturated topic, poor
audience fit, high controversy and negative sentiment. -/
def c7input : SimulatorInput :=
  { text := ("#### @@@").toList
    media := .noMedia
    post_id := none
    author_id := none
    is_oon := false
    video_duration_seconds := none
    has_link_override := some true
    followers := 0
    following := 0
    account_age_days := 0
    avg_engagement_rate := 0
    posts_per_day := 0
    verified := false
    hour_of_day := 12
    novelty := 0
    timeliness := 0
    topic_saturation := 1
    audience_fit := 0
    controversy := 1
    sentiment := -1 }

/-- Text features of the counterexample input. -/
def feats7 : TextFeatures :=
  { char_count := 8, word_count := 0, hashtags := 4, mentions := 3
    urls := 0, questions := 0, exclamations := 0, emoji_count := 0
    uppercase_frac := 0, avg_word_len := 0, starts_with_number := false
    has_hook_word := false, cta_share := false, cta_reply := false }

/-- Concrete feature extraction at the counterexample input. -/
theorem featuresOf_c7 : featuresOf c7input = feats7 := by
  decide

/-- Heuristic action vector of the counterexample input under the
stand-ins. -/
def acts7 : ActionProbs :=
  { like := 2 / 3, reply := 2 / 3, repost := 2 / 3, quote := 2 / 3
    click := 2 / 3, profile_click := 2 / 3, video_view := 2 / 3
    photo_expand := 2 / 3, share := 2 / 3, share_dm := 2 / 3
    share_link := 2 / 3, dwell := 2 / 3, follow_author := 2 / 3
    quoted_click := 2 / 3, not_interested := 2 / 3, block := 2 / 3
    mute := 2 / 3, report := 2 / 3, dwell_time := 124 / 15 }

/-- Concrete heuristic action vector at the counterexample input. -/
theorem heuristicActions_c7 :
    heuristicActions constHalf constZero c7input none = acts7 := by
  ext <;> simp only [heuristicActions, acts7] <;>
    first
      | exact sigmoid_constHalf _
      | (simp only [featuresOf_c7, feats7]
         norm_num [estimate_dwell_time, sigmoid_constHalf, c7input,
           MediaType.media_score, min_def, max_def])

/-- Signal snapshot of the counterexample input. -/
def sigs7 : Signals :=
  { length_score := 1 / 2, clarity := 49 / 100, hook := 0, novelty := 0
    timeliness := 0, shareability := 49 / 500
    content_quality := 441 / 2000, author_quality := 1 / 20
    audience_alignment := 0, negative_risk := 63 / 80
    media_score := 0, time_score := 1 / 2 }

/-- Concrete signal snapshot at the counterexample input. -/
theorem signalsOf_c7 :
    signalsOf constHalf constZero c7input none = sigs7 := by
  have hlen : lengthScore constHalf c7input = 1 / 2 := by
    simp only [lengthScore, featuresOf_c7, feats7]
    norm_num [gaussian_constHalf]
  have hread : readabilityScore constHalf c7input = 1 / 2 := by
    simp only [readabilityScore, featuresOf_c7, feats7]
    norm_num [gaussian_constHalf]
  have hspam : spamminess c7input = 11 / 20 := by
    simp only [spamminess, linkFlag, hasLink, featuresOf_c7, feats7]
    norm_num [c7input, bool_to_f64, clamp01, min_def, max_def]
  have hhook : hookSig c7input none = 0 := by
    simp only [hookSig, baseHook, featuresOf_c7, feats7]
    norm_num [bool_to_f64, clamp01, min_def, max_def]
  have hclar : claritySig constHalf c7input none = 49 / 100 := by
    simp only [claritySig, baseClarity, hlen, hread, hspam]
    norm_num [clamp01, min_def, max_def]
  have hnov : noveltySig c7input none = 0 := by
    norm_num [noveltySig, c7input, clamp01, min_def, max_def]
  have htim : timelinessSig c7input = 0 := by
    norm_num [timelinessSig, c7input, clamp01, min_def, max_def]
  have hshare : shareabilitySig constHalf c7input none = 49 / 500 := by
    simp only [shareabilitySig, hhook, hnov, hclar, featuresOf_c7, feats7]
    norm_num [bool_to_f64, clamp01, min_def, max_def]
  have hcq : contentQuality constHalf c7input none = 441 / 2000 := by
    simp only [contentQuality, hclar, hhook, hnov, htim]
    norm_num [clamp01, min_def, max_def]
  have hratio : ratioScore constZero c7input = 0 := by
    norm_num [ratioScore, log10_safe_constZero, clamp01, min_def, max_def]
  have haq : authorQuality constHalf constZero c7input = 1 / 20 := by
    simp only [authorQuality, authorStrength, followersLog, hratio]
    norm_num [log10_safe_constZero, ageScore, engScore, cadenceScore,
      gaussian_constHalf, verifiedBonus, c7input, clamp01, min_def,
      max_def]
  have halign : audienceAlignment constZero c7input = 0 := by
    simp only [audienceAlignment, hratio]
    norm_num [audienceFitSig, topicSaturationSig, c7input, clamp01,
      min_def, max_def]
  have hnr : negativeRisk c7input none = 63 / 80 := by
    simp only [negativeRisk, hspam, featuresOf_c7, feats7]
    norm_num [controversySig, sentimentSig, topicSaturationSig, c7input,
      clamp01, min_def, max_def]
  have htime : time_of_day_score constHalf c7input.hour_of_day
      = 1 / 2 := by
    norm_num [time_of_day_score, gaussian_constHalf, c7input, min_def,
      max_def]
  ext <;>
    simp only [signalsOf, sigs7] <;>
    first
      | exact hlen
      | exact hclar
      | exact hhook
      | exact hnov
      | exact htim
      | exact hshare
      | exact hcq
      | exact haq
      | exact halign
      | exact hnr
      | exact htime
      | simp [c7input, MediaType.media_score]

/-- Concrete weighted score of the counterexample input's action
vector. -/
theorem weighted_c7 :
    WeightedScorer.score ⟨defaultWeights, 6, 1⟩ acts7 none
      = -88 / 75 := by
  norm_num [WeightedScorer.score, WeightedScorer.offset_score, acts7,
    defaultWeights]

/-- C7 counterexample: with no external suggestion list the local rules
are returned untruncated; at this input twelve rules fire, so the output
suggestions list has twelve entries and the ten-entry cap is violated. -/
theorem claim_c7_counterexample :
    (simulate_with_mode constHalf constZero hashStub c7input none none
      .heuristic none defaultScoringConfig).suggestions.length = 12 ∧
    ¬ ((simulate_with_mode constHalf constZero hashStub c7input none none
      .heuristic none
      defaultScoringConfig).suggestions.length ≤ 10) := by
  obtain ⟨pid, aid, hwp⟩ : ∃ pid aid,
      (simulate_with_mode constHalf constZero hashStub c7input none none
        .heuristic none defaultScoringConfig).weighted_score =
        ((ScoringPipeline.score (build_pipeline defaultScoringConfig)
          [ScoredCandidate.new pid aid c7input.is_oon
            (derive_video_duration c7input)
            (heuristicActions constHalf constZero c7input
              none)]).getLast?.getD
          (ScoredCandidate.new ("post") ("author") false none
            (heuristicActions constHalf constZero c7input
              none))).weighted_score := ⟨_, _, rfl⟩
  have hpipe := pipeline_singleton_in (build_pipeline defaultScoringConfig)
    (ScoredCandidate.new pid aid c7input.is_oon
      (derive_video_duration c7input)
      (heuristicActions constHalf constZero c7input none))
    rfl
  rw [hpipe] at hwp
  simp only [List.getLast?_singleton, Option.getD_some,
    ScoredCandidate.new] at hwp
  rw [heuristicActions_c7] at hwp
  have hbp : (build_pipeline defaultScoringConfig).weighted_scorer
      = ⟨defaultWeights, 6, 1⟩ := rfl
  have hdvd : derive_video_duration c7input = none := rfl
  rw [hbp, hdvd, weighted_c7] at hwp
  obtain ⟨w, hsugg, hww⟩ : ∃ w,
      (simulate_with_mode constHalf constZero hashStub c7input none none
        .heuristic none defaultScoringConfig).suggestions
        = build_suggestions c7input (featuresOf c7input)
            (signalsOf constHalf constZero c7input none)
            (heuristicActions constHalf constZero c7input none) w ∧
      (simulate_with_mode constHalf constZero hashStub c7input none none
        .heuristic none defaultScoringConfig).weighted_score = w :=
    ⟨_, rfl, rfl⟩
  have hwv : w = -88 / 75 := hww.symm.trans hwp
  rw [featuresOf_c7, signalsOf_c7, heuristicActions_c7, hwv] at hsugg
  rw [hsugg]
  norm_num [build_suggestions, feats7, sigs7, acts7, c7input]

/-- Projection of the output suggestions list through the engine. -/
theorem simulate_suggestions_eq (E L : ℚ → ℚ) (H : List Char → String)
    (i : SimulatorInput) (llm : Option LlmScore) (tr : Option LlmTrace)
    (m : ScoringMode) (pa : Option ActionProbs) (cfg : ScoringConfig) :
    (simulate_with_mode E L H i llm tr m pa cfg).suggestions
      = suggestionsOf E L i llm
          (resolveActions m pa (heuristicActions E L i llm))
          (candidateOf H i cfg
            (resolveActions m pa
              (heuristicActions E L i llm))).weighted_score := rfl

/-- C7 amended (the ten-entry cap applies exactly when an external
suggestion list is supplied): the merge appends the external items after
the local ones, deduplicated under case- and whitespace-normalization
against the local list and the earlier external items, truncating the
result to ten entries; and whenever an external score is present the
output suggestions list has at most ten entries.  Without an external
list the local rules are returned uncapped (see the counterexample). -/
theorem claim_c7_suggestions_cap :
    (∀ base extras, merge_suggestions base extras =
      (base ++ mergeExtras (base.map normalize_text) extras).take 10) ∧
    (∀ (E L : ℚ → ℚ) (H : List Char → String) (i : SimulatorInput)
       (s : LlmScore) (tr : Option LlmTrace) (m : ScoringMode)
       (pa : Option ActionProbs) (cfg : ScoringConfig),
      (simulate_with_mode E L H i (some s) tr m pa cfg).suggestions.length
        ≤ 10) := by
  have hm : ∀ base extras, merge_suggestions base extras =
      (base ++ mergeExtras (base.map normalize_text) extras).take 10 := by
    intro base extras
    simp only [merge_suggestions]
    split_ifs with h
    · rfl
    · rw [List.take_of_length_le (by omega)]
  refine ⟨hm, ?_⟩
  intro E L H i s tr m pa cfg
  rw [simulate_suggestions_eq]
  simp only [suggestionsOf]
  rw [hm]
  simp [List.length_take]

/-- Witness for C3 at the default diversity configuration. -/
theorem claim_c3_diversity_walk_witness :
    (0 : ℚ) < defaultDiversity.decay ∧ defaultDiversity.decay < 1 ∧
    (0 : ℚ) ≤ defaultDiversity.floor ∧ defaultDiversity.floor < 1 ∧
    AuthorDiversityScorer.multiplier ⟨defaultDiversity⟩ 0 = 1 :=
  ⟨by norm_num [defaultDiversity], by norm_num [defaultDiversity],
   by norm_num [defaultDiversity], by norm_num [defaultDiversity],
   (claim_c3_diversity_walk ⟨defaultDiversity⟩ []
      (by norm_num [defaultDiversity]) (by norm_num [defaultDiversity])
      (by norm_num [defaultDiversity])
      (by norm_num [defaultDiversity])).2.2.1⟩

end XAlg
